import Mathlib

/-!
Verification of the TinyInfiniTensor core graph layer: the arena allocator
(`Allocator::alloc`, `Allocator::free`, `Allocator::getPtr`), the dataflow
graph (`GraphObj`) with its topological sort, validity check and optimizer
passes, and the shape-inference utilities (`infer_broadcast`,
`get_real_axis`, `MatmulObj::inferShape`, `ConcatObj::inferShape`).

Machine integers (`size_t`) are modelled as `Nat`; the one place where
64-bit wrap-around is observable (`getAlignedSize` at size 0) keeps the
explicit `% 2^64`.  Shared-pointer identity of tensors and operators is
modelled by their unique `fuid` / `guid` keys.
-/

namespace TinyInfini

/-- Word size of `size_t` on the 64-bit target. -/
def W : Nat := 2 ^ 64

/-- Translation of `Allocator::getAlignedSize`: `((size - 1) / alignment + 1) *
alignment` in `size_t` arithmetic.  The `% W` reproduces the wrap-around that
makes `getAlignedSize 0 = 0` (in C++, `0 - 1` wraps to `2^64 - 1`). -/
def getAlignedSize (alignment sz : Nat) : Nat :=
  (((sz + W - 1) % W) / alignment + 1) * alignment % W

/-- State of `Allocator`: the free list is the `std::map<size_t, size_t>`
keyed by offset, modelled as a list of `(offset, size)` pairs kept in
increasing offset order; `ptr` is the cached device pointer (a pure model
value), `none` until `getPtr` materializes the buffer. -/
structure Allocator where
  used : Nat
  peak : Nat
  alignment : Nat
  ptr : Option Nat
  freeBlocks : List (Nat × Nat)
  deriving DecidableEq, Repr

/-- Translation of the `Allocator` constructor: `used = 0`, `peak = 0`,
`ptr = nullptr`, `alignment = sizeof(uint64_t)`. -/
def Allocator.init : Allocator :=
  { used := 0, peak := 0, alignment := 8, ptr := none, freeBlocks := [] }

/-- Translation of the first-fit loop of `Allocator::alloc`: scan the
offset-ordered free list for the first block of size at least `sz`, remove
it and keep any remainder at `offset + sz` (which is where
`freeBlocks[addr + size] = blockSize - size` puts it in the map). -/
def firstFit : List (Nat × Nat) → Nat → Option (Nat × List (Nat × Nat))
  | [], _ => none
  | (off, bsz) :: rest, sz =>
    if sz ≤ bsz then
      some (off, if sz < bsz then (off + sz, bsz - sz) :: rest else rest)
    else
      match firstFit rest sz with
      | some (addr, rest2) => some (addr, (off, bsz) :: rest2)
      | none => none

/-- Body of `Allocator::alloc` after the assertion and the alignment of
`size`.  The "tail block" branch inspects the last map entry
(`freeBlocks.rbegin()`); `std::prev(freeBlocks.end())` erasure is
`dropLast`, and the remainder `freeBlocks[addr + size]` lands after all
remaining entries. -/
def Allocator.allocAligned (s : Allocator) (sz : Nat) : Nat × Allocator :=
  match s.freeBlocks.getLast? with
  | some (off, bsz) =>
    if off + bsz = s.peak then
      if sz ≤ bsz then
        (off, { s with
          freeBlocks := s.freeBlocks.dropLast ++
            (if sz < bsz then [(off + sz, bsz - sz)] else []),
          used := s.used + sz })
      else
        (off, { s with
          freeBlocks := s.freeBlocks.dropLast,
          peak := s.peak + (sz - bsz),
          used := s.used + sz })
    else
      match firstFit s.freeBlocks sz with
      | some (addr, blocks2) =>
        (addr, { s with freeBlocks := blocks2, used := s.used + sz })
      | none =>
        (s.peak, { s with peak := s.peak + sz, used := s.used + sz })
  | none =>
    match firstFit s.freeBlocks sz with
    | some (addr, blocks2) =>
      (addr, { s with freeBlocks := blocks2, used := s.used + sz })
    | none =>
      (s.peak, { s with peak := s.peak + sz, used := s.used + sz })

/-- Translation of `Allocator::alloc`: assert the buffer is not yet
materialized (fatal assertion modelled as `none`), round the size up, and
run the body. -/
def Allocator.alloc (s : Allocator) (sz0 : Nat) : Option (Nat × Allocator) :=
  if s.ptr.isSome then none
  else some (s.allocAligned (getAlignedSize s.alignment sz0))

/-- Translation of the merge steps of `Allocator::free`: put block `(o, s)`
in front of the blocks after it, absorbing the next block when `o + s`
equals its offset (this covers both the merge with the next block,
`addr + size == next->first`, and the merge with the previous block,
`prev->first + prev->second == addr`, of the source; under the map
invariant — blocks pairwise non-adjacent — the condition can only fire
where the freshly inserted block is involved, exactly as in the source). -/
def consMerge (o s : Nat) : List (Nat × Nat) → List (Nat × Nat)
  | (o2, s2) :: rest2 =>
    if o + s = o2 then (o, s + s2) :: rest2
    else (o, s) :: (o2, s2) :: rest2
  | [] => [(o, s)]

/-- Insertion of the freed block into the offset-ordered map.  Walking down
the list: in front of a later block the freed block is put down (merging
right if adjacent, while the enclosing frame plays `prev` and merges left);
on an equal key the map assignment overwrites; behind a block the walk
recurses and the current block is re-consed with a left merge. -/
def freeIns : List (Nat × Nat) → Nat → Nat → List (Nat × Nat)
  | [], addr, sz => [(addr, sz)]
  | (o, s) :: rest, addr, sz =>
    if addr < o then consMerge addr sz ((o, s) :: rest)
    else if addr = o then consMerge addr sz rest
    else consMerge o s (freeIns rest addr sz)

/-- Body of `Allocator::free` after the assertion and the alignment of
`size`: `used -= size` is `Nat` subtraction (the graph layer only frees
bytes it allocated, so the `size_t` subtraction never wraps in any
reachable state), then insert-and-coalesce. -/
def Allocator.freeAligned (s : Allocator) (addr sz : Nat) : Allocator :=
  { s with used := s.used - sz, freeBlocks := freeIns s.freeBlocks addr sz }

/-- Translation of `Allocator::free`: assert the buffer is not yet
materialized (fatal assertion modelled as `none`), round the size up, and
run the body. -/
def Allocator.free (s : Allocator) (addr sz0 : Nat) : Option Allocator :=
  if s.ptr.isSome then none
  else some (s.freeAligned addr (getAlignedSize s.alignment sz0))

/-- Translation of `Allocator::getPtr`: lazily request `peak` bytes from the
runtime and cache the pointer.  The runtime collaborator `runtime->alloc` is
the parameter `r`, mapping a byte count to the returned pointer. -/
def Allocator.getPtr (r : Nat → Nat) (s : Allocator) : Nat × Allocator :=
  match s.ptr with
  | some p => (p, s)
  | none => (r s.peak, { s with ptr := some (r s.peak) })

/-- Byte `x` lies in some block of the free list. -/
def covered (blocks : List (Nat × Nat)) (x : Nat) : Prop :=
  ∃ b ∈ blocks, b.1 ≤ x ∧ x < b.1 + b.2

instance (blocks : List (Nat × Nat)) (x : Nat) : Decidable (covered blocks x) :=
  inferInstanceAs (Decidable (∃ b ∈ blocks, b.1 ≤ x ∧ x < b.1 + b.2))

/-- Ordering relation of the free list: a block ends strictly before the
next one starts (disjoint and non-adjacent). -/
def blkRel (a b : Nat × Nat) : Prop := a.1 + a.2 < b.1

instance (a b : Nat × Nat) : Decidable (blkRel a b) :=
  inferInstanceAs (Decidable (a.1 + a.2 < b.1))

/-- Free-list invariants of the arena (spec §3): blocks are kept in strictly
increasing offset order, pairwise disjoint and non-adjacent (adjacent blocks
are always merged), every block is non-empty and ends no later than `peak`. -/
def FreeInv (s : Allocator) : Prop :=
  s.freeBlocks.Chain' blkRel ∧
  ∀ b ∈ s.freeBlocks, 0 < b.2 ∧ b.1 + b.2 ≤ s.peak

instance (s : Allocator) : Decidable (FreeInv s) :=
  inferInstanceAs
    (Decidable (s.freeBlocks.Chain' blkRel ∧ ∀ b ∈ s.freeBlocks, 0 < b.2 ∧ b.1 + b.2 ≤ s.peak))

/-- Operator kinds with their typed attributes (`OpType` together with the
per-kind payload): `Transpose` carries `permute`, `MatMul` carries
`transA`/`transB`, `Concat` carries `dim`; `other` stands for the remaining
kinds of the operator zoo, which the core treats opaquely. -/
inductive OpKind where
  | transpose (permute : List Nat)
  | matmul (transA transB : Bool)
  | concat (dim : Nat)
  | other (tag : Nat)
  deriving DecidableEq, Repr

/-- Translation of `TensorObj` as seen by the core: shape, unique `fuid`, the
producing operator (`source`, a `guid`) and the ordered consumer list
(`targets`, guids in insertion order).  Cross-links are by unique id, which
models shared-pointer identity. -/
structure TensorObj where
  fuid : Nat
  dims : List Nat
  source : Option Nat
  targets : List Nat
  deriving DecidableEq, Repr

/-- Translation of `OperatorObj` as seen by the core: unique `guid`, kind with
attributes, ordered input/output tensor lists (fuids), and the
predecessor/successor operator sets (guids). -/
structure OperatorObj where
  guid : Nat
  kind : OpKind
  inputs : List Nat
  outputs : List Nat
  predecessors : List Nat
  successors : List Nat
  deriving DecidableEq, Repr

/-- Modelled from the spec: `TensorObj::addTarget` appends the consumer to the
ordered `targets` list (spec §3: "order is insertion order").  The member
function body lives in the tensor header, which is not among the sources. -/
def TensorObj.addTarget (t : TensorObj) (op : Nat) : TensorObj :=
  { t with targets := t.targets ++ [op] }

/-- Modelled from the spec: `TensorObj::removeTarget` removes the operator
from `targets`. -/
def TensorObj.removeTarget (t : TensorObj) (op : Nat) : TensorObj :=
  { t with targets := t.targets.filter (fun g => g != op) }

/-- Modelled from the spec: `TensorObj::setSource`. -/
def TensorObj.setSource (t : TensorObj) (op : Nat) : TensorObj :=
  { t with source := some op }

/-- Modelled from the spec: `OperatorObj::addPredecessors` adds to the
predecessor set (spec §3 calls `predecessors` a set, so insertion is
duplicate-free). -/
def OperatorObj.addPredecessors (o : OperatorObj) (p : Nat) : OperatorObj :=
  if p ∈ o.predecessors then o else { o with predecessors := o.predecessors ++ [p] }

/-- Modelled from the spec: `OperatorObj::addSuccessors`. -/
def OperatorObj.addSuccessors (o : OperatorObj) (p : Nat) : OperatorObj :=
  if p ∈ o.successors then o else { o with successors := o.successors ++ [p] }

/-- Modelled from the spec: `OperatorObj::removePredecessors`. -/
def OperatorObj.removePredecessors (o : OperatorObj) (p : Nat) : OperatorObj :=
  { o with predecessors := o.predecessors.filter (fun g => g != p) }

/-- Modelled from the spec: `OperatorObj::removeSuccessors`. -/
def OperatorObj.removeSuccessors (o : OperatorObj) (p : Nat) : OperatorObj :=
  { o with successors := o.successors.filter (fun g => g != p) }

/-- Modelled from the spec: `OperatorObj::replaceInput(t1, t2)` rewrites each
occurrence of tensor `t1` in the ordered input list to `t2`. -/
def OperatorObj.replaceInput (o : OperatorObj) (t1 t2 : Nat) : OperatorObj :=
  { o with inputs := o.inputs.map (fun t => if t == t1 then t2 else t) }

/-- State of `GraphObj`: the owned tensor and operator lists (insertion
order), the `sorted` flag, and the counters that hand out fresh `fuid`s and
`guid`s (in C++ these are global counters read by the object constructors). -/
structure GraphObj where
  tensors : List TensorObj
  ops : List OperatorObj
  sorted : Bool
  nextFuid : Nat
  nextGuid : Nat
  deriving DecidableEq, Repr

/-- Dereference a tensor shared pointer: look the tensor up by `fuid`. -/
def GraphObj.tensor? (g : GraphObj) (fuid : Nat) : Option TensorObj :=
  g.tensors.find? (fun t => t.fuid == fuid)

/-- Dereference an operator shared pointer: look the operator up by `guid`. -/
def GraphObj.op? (g : GraphObj) (guid : Nat) : Option OperatorObj :=
  g.ops.find? (fun o => o.guid == guid)

/-- Mutate the tensor object with the given `fuid` (no-op when absent). -/
def GraphObj.updT (g : GraphObj) (fuid : Nat) (f : TensorObj → TensorObj) : GraphObj :=
  { g with tensors := g.tensors.map (fun t => if t.fuid == fuid then f t else t) }

/-- Mutate the operator object with the given `guid` (no-op when absent). -/
def GraphObj.updOp (g : GraphObj) (guid : Nat) (f : OperatorObj → OperatorObj) : GraphObj :=
  { g with ops := g.ops.map (fun o => if o.guid == guid then f o else o) }

/-- Translation of `GraphObj::removeTensor`: erase the first matching entry
from the tensor list. -/
def GraphObj.removeTensor (g : GraphObj) (fuid : Nat) : GraphObj :=
  { g with tensors := g.tensors.eraseP (fun t => t.fuid == fuid) }

/-- Translation of `GraphObj::removeOperator`: erase the first matching entry
from the operator list. -/
def GraphObj.removeOperator (g : GraphObj) (guid : Nat) : GraphObj :=
  { g with ops := g.ops.eraseP (fun o => o.guid == guid) }

/-- Translation of `GraphObj::addTensor(Shape, DataType)`: create a fresh
tensor (new `fuid`, no source, no targets) and append it to the list. -/
def GraphObj.addTensor (g : GraphObj) (dims : List Nat) : GraphObj :=
  { g with
    tensors := g.tensors ++ [{ fuid := g.nextFuid, dims := dims, source := none, targets := [] }],
    nextFuid := g.nextFuid + 1 }

/-- The source operator of the input tensor `fuid`, as `topo_sort` reads it
via `input->getSource()`; a tensor absent from the graph has no source. -/
def GraphObj.tensorSource (g : GraphObj) (fuid : Nat) : Option Nat :=
  match g.tensor? fuid with
  | some t => t.source
  | none => none

/-- Translation of `GraphObj::addOperatorAndConnect`: clear `sorted`, append
the operator, then cross-link — each input gains the operator as target and
contributes its source to the predecessor/successor sets; each output gets
its source set and contributes its targets. -/
def GraphObj.addOperatorAndConnect (g0 : GraphObj) (op : OperatorObj) : GraphObj :=
  let g1 := { g0 with sorted := false, ops := g0.ops ++ [op] }
  let g2 := op.inputs.foldl (fun g input =>
    match g.tensor? input with
    | none => g
    | some t =>
      let g := g.updT input (fun t => t.addTarget op.guid)
      match t.source with
      | some pred =>
        let g := g.updOp pred (fun o => o.addSuccessors op.guid)
        g.updOp op.guid (fun o => o.addPredecessors pred)
      | none => g) g1
  op.outputs.foldl (fun g output =>
    match g.tensor? output with
    | none => g
    | some t =>
      let g := g.updT output (fun t => t.setSource op.guid)
      t.targets.foldl (fun g succ =>
        let g := g.updOp succ (fun o => o.addPredecessors op.guid)
        g.updOp op.guid (fun o => o.addSuccessors succ)) g) g2

/-- Fuid-uniqueness loop of `GraphObj::checkValid` (the `std::set` count and
insert): no value occurs twice in the list. -/
def nodupB : List Nat → Bool
  | [] => true
  | x :: xs => (!xs.contains x) && nodupB xs

/-- Translation of `GraphObj::checkValid` with the fatal assertions turned
into a `Bool`: every tensor target and source is in the operator list, no
tensor has both no source and no targets, every operator input/output is in
the tensor list, every predecessor/successor is in the operator list, and no
two tensors share a `fuid`. -/
def GraphObj.checkValid (g : GraphObj) : Bool :=
  g.tensors.all (fun t =>
    (!(t.targets.isEmpty && t.source.isNone)) &&
    t.targets.all (fun op => g.ops.any (fun o => o.guid == op)) &&
    (match t.source with
     | some s => g.ops.any (fun o => o.guid == s)
     | none => true)) &&
  g.ops.all (fun o =>
    o.inputs.all (fun t => g.tensors.any (fun u => u.fuid == t)) &&
    o.outputs.all (fun t => g.tensors.any (fun u => u.fuid == t)) &&
    o.predecessors.all (fun p => g.ops.any (fun q => q.guid == p)) &&
    o.successors.all (fun p => g.ops.any (fun q => q.guid == p))) &&
  nodupB (g.tensors.map (fun t => t.fuid))

/-- One inner pass of `GraphObj::topo_sort`: walk the operator list in order
and emit every operator not yet emitted whose inputs all have either no
source or an already-emitted source.  `acc` is the `sorted` vector; the
emitted-flags set is `acc.map guid`, updated as the pass goes (an operator
later in the same pass may depend on one emitted earlier in it). -/
def topoPass (g : GraphObj) : List OperatorObj → List OperatorObj → List OperatorObj
  | [], acc => acc
  | op :: rest, acc =>
    if (!(acc.map (fun o => o.guid)).contains op.guid) &&
       op.inputs.all (fun t =>
         match g.tensorSource t with
         | none => true
         | some s => (acc.map (fun o => o.guid)).contains s) then
      topoPass g rest (acc ++ [op])
    else
      topoPass g rest acc

/-- Outer fixpoint loop of `GraphObj::topo_sort`: repeat passes while fewer
than all operators are emitted; a pass that emits nothing means a cycle
(`none`).  Each productive pass emits at least one operator, so fuel
`g.ops.length` suffices to reach the fixpoint. -/
def topoLoop (g : GraphObj) : Nat → List OperatorObj → Option (List OperatorObj)
  | 0, acc => if g.ops.length ≤ acc.length then some acc else none
  | fuel + 1, acc =>
    if g.ops.length ≤ acc.length then some acc
    else if (topoPass g g.ops acc).length = acc.length then none
    else topoLoop g fuel (topoPass g g.ops acc)

/-- Translation of `GraphObj::topo_sort`: an already-`sorted` graph returns
`true` untouched; otherwise run the Kahn-style fixpoint, and on success
install the emission order as the operator list and set `sorted`.  On
failure the graph is returned unchanged. -/
def GraphObj.topo_sort (g : GraphObj) : Bool × GraphObj :=
  if g.sorted then (true, g)
  else
    match topoLoop g g.ops.length [] with
    | some l => (true, { g with ops := l, sorted := true })
    | none => (false, g)

/-- Translation of `GraphObj::removeOperatorfromGraph`: detach the operator
from the predecessor/successor sets of its neighbors, then erase it from the
operator list. -/
def GraphObj.removeOperatorfromGraph (g : GraphObj) (guid : Nat) : GraphObj :=
  match g.op? guid with
  | none => g
  | some op =>
    let g := op.predecessors.foldl (fun g p =>
      g.updOp p (fun o => o.removeSuccessors guid)) g
    let g := op.successors.foldl (fun g p =>
      g.updOp p (fun o => o.removePredecessors guid)) g
    g.removeOperator guid

/-- Translation of `GraphObj::replaceOperator`: overwrite the first list
entry equal to `oldOp` (shared-pointer equality, i.e. same `guid`) with
`newOp`, retarget every input of the old operator to the new one (rebuilding
predecessor links from input sources), and set the new operator as source of
every output (rebuilding successor links from output targets). -/
def GraphObj.replaceOperator (g0 : GraphObj) (oldOp newOp : OperatorObj) : GraphObj :=
  let g1 := { g0 with ops :=
    match g0.ops.findIdx? (fun o => o.guid == oldOp.guid) with
    | some i => g0.ops.set i newOp
    | none => g0.ops }
  let g2 := oldOp.inputs.foldl (fun g input =>
    let g := g.updT input (fun t => (t.removeTarget oldOp.guid).addTarget newOp.guid)
    match g.tensorSource input with
    | some src =>
      let g := g.updOp src (fun o => o.addSuccessors newOp.guid)
      g.updOp newOp.guid (fun o => o.addPredecessors src)
    | none => g) g1
  oldOp.outputs.foldl (fun g output =>
    let g := g.updT output (fun t => t.setSource newOp.guid)
    match g.tensor? output with
    | some t =>
      t.targets.foldl (fun g target =>
        let g := g.updOp target (fun o => o.addPredecessors newOp.guid)
        g.updOp newOp.guid (fun o => o.addSuccessors target)) g
    | none => g) g2

/-- Translation of `GraphObj::reconnectTensors`: snapshot `to`'s targets,
strip ALL targets from `from` (the loop iterates over a copy and removes
each one), then move every snapshot target over: rewrite its input `to` to
`from`, add it to `from`'s targets and drop it from `to`'s. -/
def GraphObj.reconnectTensors (g0 : GraphObj) (tFrom tTo : Nat) : GraphObj :=
  let toTargets := match g0.tensor? tTo with
    | some t => t.targets
    | none => []
  let fromTargets := match g0.tensor? tFrom with
    | some t => t.targets
    | none => []
  let g1 := fromTargets.foldl (fun g target =>
    g.updT tFrom (fun t => t.removeTarget target)) g0
  toTargets.foldl (fun g target =>
    let g := g.updOp target (fun o => o.replaceInput tTo tFrom)
    let g := g.updT tFrom (fun t => t.addTarget target)
    g.updT tTo (fun t => t.removeTarget target)) g1

/-- Translation of `GraphObj::isInversePermutation`: equal lengths and the
composition `perm2[perm1[i]]` is the identity. -/
def isInversePermutation (perm1 perm2 : List Nat) : Bool :=
  perm1.length == perm2.length &&
  (List.range perm1.length).all (fun i => perm2.getD (perm1.getD i 0) 0 == i)

/-- Translation of `GraphObj::isLastTwoDimTranspose`: rank at least 2, the
permutation fixes every index below `rank - 2` and swaps the last two. -/
def isLastTwoDimTranspose (permute : List Nat) (rank : Nat) : Bool :=
  if rank < 2 then false
  else
    (List.range (rank - 2)).all (fun i => permute.getD i 0 == i) &&
    permute.getD (rank - 2) 0 == rank - 1 &&
    permute.getD (rank - 1) 0 == rank - 2

/-- Index-driven loop of `GraphObj::removeRedundantTranspose` (`for (size_t
i = 0; i < ops.size();)` with restart `i = 0` after every splice).  A splice
removes two operators, and `i` strictly increases otherwise, so the fuel
passed by `removeRedundantTranspose` covers every iteration. -/
def rrtLoop : Nat → GraphObj → Bool → Nat → GraphObj × Bool
  | 0, g, changed, _ => (g, changed)
  | fuel + 1, g, changed, i =>
    match g.ops[i]? with
    | none => (g, changed)
    | some op =>
      match op.kind with
      | OpKind.transpose p =>
        let output := op.outputs.getD 0 0
        match g.tensor? output with
        | some outT =>
          if outT.targets.length = 1 then
            match g.op? (outT.targets.getD 0 0) with
            | some nextOp =>
              match nextOp.kind with
              | OpKind.transpose q =>
                if isInversePermutation p q then
                  let input := op.inputs.getD 0 0
                  let finalOutput := nextOp.outputs.getD 0 0
                  let g := g.reconnectTensors input finalOutput
                  let g := g.removeOperatorfromGraph op.guid
                  let g := g.removeOperatorfromGraph nextOp.guid
                  let g := g.removeTensor output
                  let g := g.removeTensor finalOutput
                  rrtLoop fuel g true 0
                else rrtLoop fuel g changed (i + 1)
              | _ => rrtLoop fuel g changed (i + 1)
            | none => rrtLoop fuel g changed (i + 1)
          else rrtLoop fuel g changed (i + 1)
        | none => rrtLoop fuel g changed (i + 1)
      | _ => rrtLoop fuel g changed (i + 1)

/-- Translation of `GraphObj::removeRedundantTranspose`: run the splice loop,
then `topo_sort()` (whose Boolean result is discarded), and report whether
anything changed. -/
def GraphObj.removeRedundantTranspose (g : GraphObj) : GraphObj × Bool :=
  let (g2, changed) := rrtLoop ((g.ops.length + 1) * (g.ops.length + 2)) g false 0
  let (_, g3) := g2.topo_sort
  (g3, changed)

/-- Case A of `GraphObj::fuseTransposeIntoMatmul` for the MatMul `op` with
inputs `(inputA, inputB)`: when `inputA` is produced by a Transpose of the
last two dimensions of `inputA`'s rank, build a new MatMul reading the
Transpose's input with `transA` flipped, replace the old MatMul, and when
the transposed tensor had no other consumer remove the Transpose operator
and the tensor.  Returns `none` when the pattern does not match. -/
def fuseCaseA (g : GraphObj) (op : OperatorObj) (tA tB : Bool)
    (inputA inputB : Nat) : Option GraphObj :=
  match g.tensorSource inputA with
  | none => none
  | some srcA =>
    match g.op? srcA with
    | none => none
    | some sourceA =>
      match sourceA.kind with
      | OpKind.transpose pA =>
        let rankA := match g.tensor? inputA with
          | some t => t.dims.length
          | none => 0
        if isLastTwoDimTranspose pA rankA then
          let newM : OperatorObj :=
            { guid := g.nextGuid, kind := OpKind.matmul (!tA) tB,
              inputs := [sourceA.inputs.getD 0 0, inputB],
              outputs := [op.outputs.getD 0 0],
              predecessors := [], successors := [] }
          let g := { g with nextGuid := g.nextGuid + 1 }
          let g := g.replaceOperator op newM
          let nTargets := match g.tensor? inputA with
            | some t => t.targets.length
            | none => 0
          some (if nTargets = 1 then
              (g.removeOperatorfromGraph srcA).removeTensor inputA
            else g)
        else none
      | _ => none

/-- Case B of `GraphObj::fuseTransposeIntoMatmul` (tried only when case A did
not fire): symmetric fusion on `inputB` with `transB` flipped; unlike case
A, the source explicitly retargets the Transpose's input tensor from the
Transpose to the new MatMul before replacing. -/
def fuseCaseB (g : GraphObj) (op : OperatorObj) (tA tB : Bool)
    (inputA inputB : Nat) : Option GraphObj :=
  match g.tensorSource inputB with
  | none => none
  | some srcB =>
    match g.op? srcB with
    | none => none
    | some sourceB =>
      match sourceB.kind with
      | OpKind.transpose pB =>
        let rankB := match g.tensor? inputB with
          | some t => t.dims.length
          | none => 0
        if isLastTwoDimTranspose pB rankB then
          let inputtransposeB := sourceB.inputs.getD 0 0
          let g := g.updT inputtransposeB (fun t => t.removeTarget srcB)
          let newM : OperatorObj :=
            { guid := g.nextGuid, kind := OpKind.matmul tA (!tB),
              inputs := [inputA, inputtransposeB],
              outputs := [op.outputs.getD 0 0],
              predecessors := [], successors := [] }
          let g := { g with nextGuid := g.nextGuid + 1 }
          let g := g.updT inputtransposeB (fun t => t.addTarget newM.guid)
          let g := g.replaceOperator op newM
          let nTargets := match g.tensor? inputB with
            | some t => t.targets.length
            | none => 0
          some (if nTargets = 1 then
              (g.removeOperatorfromGraph srcB).removeTensor inputB
            else g)
        else none
      | _ => none

/-- Index loop of `GraphObj::fuseTransposeIntoMatmul` (`for (size_t i = 0;
i < ops.size(); ++i)`); `i` strictly increases, so fuel `ops.length + 1`
covers every iteration. -/
def fuseLoop : Nat → GraphObj → Bool → Nat → GraphObj × Bool
  | 0, g, changed, _ => (g, changed)
  | fuel + 1, g, changed, i =>
    match g.ops[i]? with
    | none => (g, changed)
    | some op =>
      match op.kind with
      | OpKind.matmul tA tB =>
        let inputA := op.inputs.getD 0 0
        let inputB := op.inputs.getD 1 0
        match fuseCaseA g op tA tB inputA inputB with
        | some g2 => fuseLoop fuel g2 true (i + 1)
        | none =>
          match fuseCaseB g op tA tB inputA inputB with
          | some g2 => fuseLoop fuel g2 true (i + 1)
          | none => fuseLoop fuel g changed (i + 1)
      | _ => fuseLoop fuel g changed (i + 1)

/-- Translation of `GraphObj::fuseTransposeIntoMatmul`. -/
def GraphObj.fuseTransposeIntoMatmul (g : GraphObj) : GraphObj × Bool :=
  fuseLoop (g.ops.length + 1) g false 0

/-- Fixpoint loop of `GraphObj::optimize`: run both passes until neither
reports a change.  Every productive iteration strictly decreases the number
of Transpose operators, so fuel `ops.length + 1` reaches the fixpoint. -/
def optimizeLoop : Nat → GraphObj → GraphObj
  | 0, g => g
  | fuel + 1, g =>
    let (g1, c1) := g.removeRedundantTranspose
    let (g2, c2) := g1.fuseTransposeIntoMatmul
    if c1 || c2 then optimizeLoop fuel g2 else g2

/-- Translation of `GraphObj::optimize`: run the passes to fixpoint and then
clear the `sorted` flag. -/
def GraphObj.optimize (g : GraphObj) : GraphObj :=
  { optimizeLoop (g.ops.length + 1) g with sorted := false }

/-- The empty graph, with id counters for fresh tensors (fuids from 0) and
fresh operators (guids from 100, a disjoint range, as both C++ counters are
process-global and never collide between tensors and operators). -/
def GraphObj.empty : GraphObj :=
  { tensors := [], ops := [], sorted := false, nextFuid := 0, nextGuid := 100 }

/-- Helper mirroring `GraphObj::addOpWithOutputs`: construct the operator
with a fresh `guid` and cross-link it via `addOperatorAndConnect`. -/
def GraphObj.addOp (g : GraphObj) (kind : OpKind) (inputs outputs : List Nat) : GraphObj :=
  let op : OperatorObj :=
    { guid := g.nextGuid, kind := kind, inputs := inputs, outputs := outputs,
      predecessors := [], successors := [] }
  GraphObj.addOperatorAndConnect { g with nextGuid := g.nextGuid + 1 } op

/-- Loop body of `infer_broadcast` (utils/operator_utils.cc) at result
position `j` (the loop index is `i = maxRank - 1 - j`): read
`A[rankA - 1 - i]` when `i < rankA` and 1 otherwise, same for `B`, keep
equal dimensions, resolve a 1 against the other dimension, and fail the
fatal assertion (`none`) otherwise. -/
def bcastDim (A B : List Nat) (j : Nat) : Option Nat :=
  let i := max A.length B.length - 1 - j
  let dimA := if i < A.length then A.getD (A.length - 1 - i) 0 else 1
  let dimB := if i < B.length then B.getD (B.length - 1 - i) 0 else 1
  if dimA = dimB then some dimA
  else if dimA = 1 then some dimB
  else if dimB = 1 then some dimA
  else none

/-- Translation of `infer_broadcast`: fill every position of the
`maxRank`-sized result, aborting on the incompatible-dimensions
assertion. -/
def infer_broadcast (A B : List Nat) : Option (List Nat) :=
  (List.range (max A.length B.length)).mapM (bcastDim A B)

/-- Left padding of a shape with 1s up to rank `m` — the right-aligned
broadcast rule in the claim's phrasing. -/
def padShape (m : Nat) (A : List Nat) : List Nat :=
  List.replicate (m - A.length) 1 ++ A

/-- Resolution of one dimension pair under the broadcast rule, as the
source computes it. -/
def bcastD (dA dB : Nat) : Option Nat :=
  if dA = dB then some dA
  else if dA = 1 then some dB
  else if dB = 1 then some dA
  else none

/-- Translation of `get_real_axis` (utils/operator_utils.cc): assert
`rank >= 1` and `-rank <= axis <= rank - 1` (`none` on failure), then map a
negative axis to `rank + axis`. -/
def get_real_axis (axis : Int) (rank : Nat) : Option Nat :=
  if 1 ≤ rank ∧ -(rank : Int) ≤ axis ∧ axis ≤ (rank : Int) - 1 then
    some (if axis < 0 then ((rank : Int) + axis).toNat else axis.toNat)
  else none

/-- Translation of `MatmulObj::inferShape`: both ranks at least 2 (fatal
assertion), transposition selects the matrix dimensions from the last two
entries, the contracted dimensions must agree (fatal assertion), batch
dimensions broadcast, and the result is the batch shape extended by
`[m, n]`. -/
def matmulInferShape (transA transB : Bool) (shapeA shapeB : List Nat) :
    Option (List Nat) :=
  let rankA := shapeA.length
  let rankB := shapeB.length
  if 2 ≤ rankA ∧ 2 ≤ rankB then
    let dimA_m := if transA then shapeA.getD (rankA - 1) 0 else shapeA.getD (rankA - 2) 0
    let dimA_k := if transA then shapeA.getD (rankA - 2) 0 else shapeA.getD (rankA - 1) 0
    let dimB_k := if transB then shapeB.getD (rankB - 1) 0 else shapeB.getD (rankB - 2) 0
    let dimB_n := if transB then shapeB.getD (rankB - 2) 0 else shapeB.getD (rankB - 1) 0
    if dimA_k = dimB_k then
      match infer_broadcast (shapeA.take (rankA - 2)) (shapeB.take (rankB - 2)) with
      | some batch => some (batch ++ [dimA_m, dimB_n])
      | none => none
    else none
  else none

/-- Translation of `ConcatObj::inferShape` for a Concat whose stored axis is
`dim`: start from the first input's shape and add every further input's
`dim`-th entry onto it; the operator returns exactly one shape. -/
def concatInferShape (dim : Nat) (shapes : List (List Nat)) :
    Option (List (List Nat)) :=
  match shapes with
  | [] => none
  | s0 :: rest =>
    some [rest.foldl (fun dims s => dims.set dim (dims.getD dim 0 + s.getD dim 0)) s0]

/-- Scenario graph for the fusion bug: `A0 -[Transpose perm=(1,0)]-> A`,
`MatMul(A, B) -> C` with `A`'s only consumer the MatMul.  Fuids: `A0 = 0`,
`A = 1`, `B = 2`, `C = 3`; guids: Transpose `100`, MatMul `101`. -/
def mkFuseA : GraphObj :=
  ((((GraphObj.empty.addTensor [3, 2]).addTensor [2, 3]).addTensor
      [3, 4]).addTensor [2, 4]
    |>.addOp (OpKind.transpose [1, 0]) [0] [1])
    |>.addOp (OpKind.matmul false false) [1, 2] [3]

/-- Scenario graph of spec §8.2: `A:[M,K], B0:[N,K], B = Transpose(B0,
perm=(1,0)), C = MatMul(A, B)`.  Fuids: `A = 0`, `B0 = 1`, `B = 2`, `C = 3`;
guids: Transpose `100`, MatMul `101`. -/
def mkMatmulB (M K N : Nat) : GraphObj :=
  ((((GraphObj.empty.addTensor [M, K]).addTensor [N, K]).addTensor
      [K, N]).addTensor [M, N]
    |>.addOp (OpKind.transpose [1, 0]) [1] [2])
    |>.addOp (OpKind.matmul false false) [0, 2] [3]

/-- Two operators whose outputs feed each other's inputs (spec §8.4).
Fuids: `t0 = 0`, `t1 = 1`; guids: `o1 = 100` (reads `t1`, writes `t0`),
`o2 = 101` (reads `t0`, writes `t1`). -/
def mkCycle : GraphObj :=
  ((GraphObj.empty.addTensor [1]).addTensor [1]
    |>.addOp (OpKind.other 0) [1] [0])
    |>.addOp (OpKind.other 1) [0] [1]

/-- Allocator scenario of spec §8.6: alloc three 16-byte blocks, then free
the first, the third and finally the middle one; returns the three offsets
and the final allocator state. -/
def c5Scenario : Option (Nat × Nat × Nat × Allocator) :=
  (Allocator.init.alloc 16).bind (fun p1 =>
  (p1.2.alloc 16).bind (fun p2 =>
  (p2.2.alloc 16).bind (fun p3 =>
  (p3.2.free p1.1 16).bind (fun s4 =>
  (s4.free p3.1 16).bind (fun s5 =>
  (s5.free p2.1 16).bind (fun s6 =>
  some (p1.1, p2.1, p3.1, s6)))))))

/-- Allocator scenario of spec §8.5: alloc 16, alloc 32, alloc 16, free the
middle 32, then alloc 8; returns the offset of the last allocation and the
final state. -/
def c4Scenario : Option (Nat × Allocator) :=
  (Allocator.init.alloc 16).bind (fun p1 =>
  (p1.2.alloc 32).bind (fun p2 =>
  (p2.2.alloc 16).bind (fun p3 =>
  (p3.2.free p2.1 32).bind (fun s4 =>
  s4.alloc 8))))

/-- Chain graph `t0 -[o1]-> t1 -[o2]-> t2`.  Fuids `0, 1, 2`; guids `o1 =
100`, `o2 = 101`. -/
def mkChain2 : GraphObj :=
  (((GraphObj.empty.addTensor [1]).addTensor [1]).addTensor [1]
    |>.addOp (OpKind.other 0) [0] [1])
    |>.addOp (OpKind.other 1) [1] [2]

/-- A graph whose `sorted` flag is stale: sort `mkChain2` successfully, then
remove the first operator through the public `removeOperator`, which does
not clear the flag.  The remaining operator reads tensor `1`, whose source
pointer still names the removed operator `100`. -/
def mkStaleSorted : GraphObj :=
  (mkChain2.topo_sort).2.removeOperator 100

/-- The result of sorting `mkChain2`: the same graph with the flag set. -/
def topoChainSorted : GraphObj :=
  { tensors := [{ fuid := 0, dims := [1], source := none, targets := [100] },
                { fuid := 1, dims := [1], source := some 100, targets := [101] },
                { fuid := 2, dims := [1], source := some 101, targets := [] }],
    ops := [{ guid := 100, kind := OpKind.other 0, inputs := [0], outputs := [1],
              predecessors := [], successors := [101] },
            { guid := 101, kind := OpKind.other 1, inputs := [1], outputs := [2],
              predecessors := [100], successors := [] }],
    sorted := true, nextFuid := 3, nextGuid := 102 }

/-- Property guaranteed after a successful topological sort (spec §8): for
every operator at position `i` of the list and every input whose source
operator exists, that source occupies some position `j < i`. -/
def OrderedOps (g : GraphObj) (l : List OperatorObj) : Prop :=
  ∀ i : Fin l.length, ∀ t ∈ (l.get i).inputs, ∀ s2, g.tensorSource t = some s2 →
    ∃ j : Fin l.length, (j : Nat) < (i : Nat) ∧ (l.get j).guid = s2

/-- C1: the claim states that after `fuseTransposeIntoMatmul` replaces a
MatMul whose input A comes from a last-two-dims Transpose, every graph
invariant of §3 still holds.  The code violates this on `mkFuseA`: the pass
fuses (flag `true`, only the new MatMul `102` remains, reading tensor `0`),
but tensor `0`'s target list still names the removed Transpose `100` and
does not name `102`, so `checkValid` fails.  (Case B of the source retargets
the transpose input explicitly; case A forgets to.) -/
theorem C1_fuseA_breaks_invariants :
    (GraphObj.fuseTransposeIntoMatmul mkFuseA).2 = true ∧
    GraphObj.checkValid (GraphObj.fuseTransposeIntoMatmul mkFuseA).1 = false ∧
    (((GraphObj.fuseTransposeIntoMatmul mkFuseA).1.tensor? 0).map
      TensorObj.targets) = some [100] ∧
    ((GraphObj.fuseTransposeIntoMatmul mkFuseA).1.ops.map
      (fun o => o.guid)) = [102] ∧
    (((GraphObj.fuseTransposeIntoMatmul mkFuseA).1.op? 102).map
      OperatorObj.inputs) = some [0, 2] := by
  decide

/-- One step of `rrtLoop` when position `i` holds no operator: the loop
returns the graph and the change flag. -/
theorem rrtLoop_none (fuel : Nat) (g : GraphObj) (c : Bool) (i : Nat)
    (h : g.ops[i]? = none) : rrtLoop (fuel + 1) g c i = (g, c) := by
  simp only [rrtLoop, h]

/-- One step of `rrtLoop` over an operator that is not a Transpose: move on
to position `i + 1`. -/
theorem rrtLoop_skip (fuel : Nat) (g : GraphObj) (c : Bool) (i : Nat) (op : OperatorObj)
    (h : g.ops[i]? = some op)
    (hk : ∀ p, op.kind ≠ OpKind.transpose p) :
    rrtLoop (fuel + 1) g c i = rrtLoop fuel g c (i + 1) := by
  simp only [rrtLoop, h]

/-- One step of `rrtLoop` over a Transpose whose output's single consumer is
not itself a Transpose: move on to position `i + 1`. -/
theorem rrtLoop_noSecond (fuel : Nat) (g : GraphObj) (c : Bool) (i : Nat)
    (op : OperatorObj) (p : List Nat) (outT : TensorObj) (nextOp : OperatorObj)
    (h : g.ops[i]? = some op)
    (hk : op.kind = OpKind.transpose p)
    (ht : g.tensor? (op.outputs.getD 0 0) = some outT)
    (hl : outT.targets.length = 1)
    (hn : g.op? (outT.targets.getD 0 0) = some nextOp)
    (hnk : ∀ q, nextOp.kind ≠ OpKind.transpose q) :
    rrtLoop (fuel + 1) g c i = rrtLoop fuel g c (i + 1) := by
  simp only [rrtLoop, h, hk, ht, hl, hn, eq_self_iff_true, if_true]

/-- One step of `fuseLoop` when position `i` holds no operator. -/
theorem fuseLoop_none (fuel : Nat) (g : GraphObj) (c : Bool) (i : Nat)
    (h : g.ops[i]? = none) : fuseLoop (fuel + 1) g c i = (g, c) := by
  simp only [fuseLoop, h]

/-- One step of `fuseLoop` over an operator that is not a MatMul. -/
theorem fuseLoop_skip (fuel : Nat) (g : GraphObj) (c : Bool) (i : Nat) (op : OperatorObj)
    (h : g.ops[i]? = some op)
    (hk : ∀ a b, op.kind ≠ OpKind.matmul a b) :
    fuseLoop (fuel + 1) g c i = fuseLoop fuel g c (i + 1) := by
  simp only [fuseLoop, h]

/-- One step of `fuseLoop` over a MatMul where case A does not match and
case B fuses. -/
theorem fuseLoop_fuseB (fuel : Nat) (g : GraphObj) (c : Bool) (i : Nat)
    (op : OperatorObj) (tA tB : Bool) (g2 : GraphObj)
    (h : g.ops[i]? = some op)
    (hk : op.kind = OpKind.matmul tA tB)
    (ha : fuseCaseA g op tA tB (op.inputs.getD 0 0) (op.inputs.getD 1 0) = none)
    (hb : fuseCaseB g op tA tB (op.inputs.getD 0 0) (op.inputs.getD 1 0) = some g2) :
    fuseLoop (fuel + 1) g c i = fuseLoop fuel g2 true (i + 1) := by
  simp only [fuseLoop, h, hk, ha, hb]

/-- One step of `fuseLoop` over a MatMul where neither case matches. -/
theorem fuseLoop_nofuse (fuel : Nat) (g : GraphObj) (c : Bool) (i : Nat)
    (op : OperatorObj) (tA tB : Bool)
    (h : g.ops[i]? = some op)
    (hk : op.kind = OpKind.matmul tA tB)
    (ha : fuseCaseA g op tA tB (op.inputs.getD 0 0) (op.inputs.getD 1 0) = none)
    (hb : fuseCaseB g op tA tB (op.inputs.getD 0 0) (op.inputs.getD 1 0) = none) :
    fuseLoop (fuel + 1) g c i = fuseLoop fuel g c (i + 1) := by
  simp only [fuseLoop, h, hk, ha, hb]

/-- `removeRedundantTranspose` from a computed splice loop and final
`topo_sort`. -/
theorem rrt_eq (g gl gs : GraphObj) (c b : Bool)
    (h : rrtLoop ((g.ops.length + 1) * (g.ops.length + 2)) g false 0 = (gl, c))
    (h2 : gl.topo_sort = (b, gs)) :
    g.removeRedundantTranspose = (gs, c) := by
  simp only [GraphObj.removeRedundantTranspose, h, h2]

/-- `fuseTransposeIntoMatmul` from a computed fuse loop. -/
theorem fuse_eq (g : GraphObj) (p2 : GraphObj × Bool)
    (h : fuseLoop (g.ops.length + 1) g false 0 = p2) :
    g.fuseTransposeIntoMatmul = p2 := by
  simp only [GraphObj.fuseTransposeIntoMatmul, h]

/-- One `optimizeLoop` iteration from the results of the two passes. -/
theorem optimizeLoop_step (fuel : Nat) (g g1 g2 : GraphObj) (c1 c2 : Bool)
    (h1 : g.removeRedundantTranspose = (g1, c1))
    (h2 : g1.fuseTransposeIntoMatmul = (g2, c2)) :
    optimizeLoop (fuel + 1) g = if c1 || c2 then optimizeLoop fuel g2 else g2 := by
  simp only [optimizeLoop, h1, h2]

/-- `optimize` from a computed fixpoint loop: the `sorted` flag is cleared at
the end. -/
theorem optimize_eq (g g2 : GraphObj)
    (h : optimizeLoop (g.ops.length + 1) g = g2) :
    g.optimize = { g2 with sorted := false } := by
  simp only [GraphObj.optimize, h]

set_option maxRecDepth 100000 in
/-- Evaluation of `fuseCaseB` on the sorted spec 8.2 graph, for arbitrary
dimensions `M, K, N`: the pattern matches (`B`'s source is a last-two-dims
Transpose), so the MatMul is replaced by a new one reading `(A, B0)` with
`transB` flipped, `B0` is retargeted to it, and the Transpose and tensor `B`
are removed. -/
theorem fuseCaseB_matmulB (M K N : Nat) :
    fuseCaseB ({ tensors := [{ fuid := 0, dims := [M, K], source := none, targets := [101] }, { fuid := 1, dims := [N, K], source := none, targets := [100] }, { fuid := 2, dims := [K, N], source := some 100, targets := [101] }, { fuid := 3, dims := [M, N], source := some 101, targets := [] }], ops := [{ guid := 100, kind := OpKind.transpose [1, 0], inputs := [1], outputs := [2], predecessors := [], successors := [101] }, { guid := 101, kind := OpKind.matmul false false, inputs := [0, 2], outputs := [3], predecessors := [100], successors := [] }], sorted := true, nextFuid := 4, nextGuid := 102 }) ({ guid := 101, kind := OpKind.matmul false false, inputs := [0, 2], outputs := [3], predecessors := [100], successors := [] }) false false 0 2 = some ({ tensors := [{ fuid := 0, dims := [M, K], source := none, targets := [102] }, { fuid := 1, dims := [N, K], source := none, targets := [102] }, { fuid := 3, dims := [M, N], source := some 102, targets := [] }], ops := [{ guid := 102, kind := OpKind.matmul false true, inputs := [0, 1], outputs := [3], predecessors := [], successors := [] }], sorted := true, nextFuid := 4, nextGuid := 103 }) := by
  simp only [fuseCaseB,
    show GraphObj.tensorSource ({ tensors := [{ fuid := 0, dims := [M, K], source := none, targets := [101] }, { fuid := 1, dims := [N, K], source := none, targets := [100] }, { fuid := 2, dims := [K, N], source := some 100, targets := [101] }, { fuid := 3, dims := [M, N], source := some 101, targets := [] }], ops := [{ guid := 100, kind := OpKind.transpose [1, 0], inputs := [1], outputs := [2], predecessors := [], successors := [101] }, { guid := 101, kind := OpKind.matmul false false, inputs := [0, 2], outputs := [3], predecessors := [100], successors := [] }], sorted := true, nextFuid := 4, nextGuid := 102 }) 2 = some 100 from rfl,
    show GraphObj.op? ({ tensors := [{ fuid := 0, dims := [M, K], source := none, targets := [101] }, { fuid := 1, dims := [N, K], source := none, targets := [100] }, { fuid := 2, dims := [K, N], source := some 100, targets := [101] }, { fuid := 3, dims := [M, N], source := some 101, targets := [] }], ops := [{ guid := 100, kind := OpKind.transpose [1, 0], inputs := [1], outputs := [2], predecessors := [], successors := [101] }, { guid := 101, kind := OpKind.matmul false false, inputs := [0, 2], outputs := [3], predecessors := [100], successors := [] }], sorted := true, nextFuid := 4, nextGuid := 102 }) 100 = some { guid := 100, kind := OpKind.transpose [1, 0], inputs := [1], outputs := [2], predecessors := [], successors := [101] } from rfl,
    show GraphObj.tensor? ({ tensors := [{ fuid := 0, dims := [M, K], source := none, targets := [101] }, { fuid := 1, dims := [N, K], source := none, targets := [100] }, { fuid := 2, dims := [K, N], source := some 100, targets := [101] }, { fuid := 3, dims := [M, N], source := some 101, targets := [] }], ops := [{ guid := 100, kind := OpKind.transpose [1, 0], inputs := [1], outputs := [2], predecessors := [], successors := [101] }, { guid := 101, kind := OpKind.matmul false false, inputs := [0, 2], outputs := [3], predecessors := [100], successors := [] }], sorted := true, nextFuid := 4, nextGuid := 102 }) 2 = some { fuid := 2, dims := [K, N], source := some 100, targets := [101] } from rfl,
    show isLastTwoDimTranspose [1, 0] (List.length [K, N]) = true from rfl,
    show List.getD [1] 0 0 = 1 from rfl,
    show (102 : Nat) + 1 = 103 from rfl,
    Bool.not_false,
    show List.getD [3] 0 0 = 3 from rfl,
    show GraphObj.updT ({ tensors := [{ fuid := 0, dims := [M, K], source := none, targets := [101] }, { fuid := 1, dims := [N, K], source := none, targets := [100] }, { fuid := 2, dims := [K, N], source := some 100, targets := [101] }, { fuid := 3, dims := [M, N], source := some 101, targets := [] }], ops := [{ guid := 100, kind := OpKind.transpose [1, 0], inputs := [1], outputs := [2], predecessors := [], successors := [101] }, { guid := 101, kind := OpKind.matmul false false, inputs := [0, 2], outputs := [3], predecessors := [100], successors := [] }], sorted := true, nextFuid := 4, nextGuid := 102 }) 1 (fun t => TensorObj.removeTarget t 100) = { tensors := [{ fuid := 0, dims := [M, K], source := none, targets := [101] }, { fuid := 1, dims := [N, K], source := none, targets := [] }, { fuid := 2, dims := [K, N], source := some 100, targets := [101] }, { fuid := 3, dims := [M, N], source := some 101, targets := [] }], ops := [{ guid := 100, kind := OpKind.transpose [1, 0], inputs := [1], outputs := [2], predecessors := [], successors := [101] }, { guid := 101, kind := OpKind.matmul false false, inputs := [0, 2], outputs := [3], predecessors := [100], successors := [] }], sorted := true, nextFuid := 4, nextGuid := 102 } from rfl,
    show GraphObj.updT ({ tensors := [{ fuid := 0, dims := [M, K], source := none, targets := [101] }, { fuid := 1, dims := [N, K], source := none, targets := [] }, { fuid := 2, dims := [K, N], source := some 100, targets := [101] }, { fuid := 3, dims := [M, N], source := some 101, targets := [] }], ops := [{ guid := 100, kind := OpKind.transpose [1, 0], inputs := [1], outputs := [2], predecessors := [], successors := [101] }, { guid := 101, kind := OpKind.matmul false false, inputs := [0, 2], outputs := [3], predecessors := [100], successors := [] }], sorted := true, nextFuid := 4, nextGuid := 103 }) 1 (fun t => TensorObj.addTarget t 102) = { tensors := [{ fuid := 0, dims := [M, K], source := none, targets := [101] }, { fuid := 1, dims := [N, K], source := none, targets := [102] }, { fuid := 2, dims := [K, N], source := some 100, targets := [101] }, { fuid := 3, dims := [M, N], source := some 101, targets := [] }], ops := [{ guid := 100, kind := OpKind.transpose [1, 0], inputs := [1], outputs := [2], predecessors := [], successors := [101] }, { guid := 101, kind := OpKind.matmul false false, inputs := [0, 2], outputs := [3], predecessors := [100], successors := [] }], sorted := true, nextFuid := 4, nextGuid := 103 } from rfl,
    show GraphObj.replaceOperator ({ tensors := [{ fuid := 0, dims := [M, K], source := none, targets := [101] }, { fuid := 1, dims := [N, K], source := none, targets := [102] }, { fuid := 2, dims := [K, N], source := some 100, targets := [101] }, { fuid := 3, dims := [M, N], source := some 101, targets := [] }], ops := [{ guid := 100, kind := OpKind.transpose [1, 0], inputs := [1], outputs := [2], predecessors := [], successors := [101] }, { guid := 101, kind := OpKind.matmul false false, inputs := [0, 2], outputs := [3], predecessors := [100], successors := [] }], sorted := true, nextFuid := 4, nextGuid := 103 }) ({ guid := 101, kind := OpKind.matmul false false, inputs := [0, 2], outputs := [3], predecessors := [100], successors := [] }) ({ guid := 102, kind := OpKind.matmul false true, inputs := [0, 1], outputs := [3], predecessors := [], successors := [] }) = { tensors := [{ fuid := 0, dims := [M, K], source := none, targets := [102] }, { fuid := 1, dims := [N, K], source := none, targets := [102] }, { fuid := 2, dims := [K, N], source := some 100, targets := [102] }, { fuid := 3, dims := [M, N], source := some 102, targets := [] }], ops := [{ guid := 100, kind := OpKind.transpose [1, 0], inputs := [1], outputs := [2], predecessors := [], successors := [101, 102] }, { guid := 102, kind := OpKind.matmul false true, inputs := [0, 1], outputs := [3], predecessors := [100], successors := [] }], sorted := true, nextFuid := 4, nextGuid := 103 } from rfl,
    show GraphObj.tensor? ({ tensors := [{ fuid := 0, dims := [M, K], source := none, targets := [102] }, { fuid := 1, dims := [N, K], source := none, targets := [102] }, { fuid := 2, dims := [K, N], source := some 100, targets := [102] }, { fuid := 3, dims := [M, N], source := some 102, targets := [] }], ops := [{ guid := 100, kind := OpKind.transpose [1, 0], inputs := [1], outputs := [2], predecessors := [], successors := [101, 102] }, { guid := 102, kind := OpKind.matmul false true, inputs := [0, 1], outputs := [3], predecessors := [100], successors := [] }], sorted := true, nextFuid := 4, nextGuid := 103 }) 2 = some { fuid := 2, dims := [K, N], source := some 100, targets := [102] } from rfl,
    show List.length [(102 : Nat)] = 1 from rfl,
    show GraphObj.removeOperatorfromGraph ({ tensors := [{ fuid := 0, dims := [M, K], source := none, targets := [102] }, { fuid := 1, dims := [N, K], source := none, targets := [102] }, { fuid := 2, dims := [K, N], source := some 100, targets := [102] }, { fuid := 3, dims := [M, N], source := some 102, targets := [] }], ops := [{ guid := 100, kind := OpKind.transpose [1, 0], inputs := [1], outputs := [2], predecessors := [], successors := [101, 102] }, { guid := 102, kind := OpKind.matmul false true, inputs := [0, 1], outputs := [3], predecessors := [100], successors := [] }], sorted := true, nextFuid := 4, nextGuid := 103 }) 100 = { tensors := [{ fuid := 0, dims := [M, K], source := none, targets := [102] }, { fuid := 1, dims := [N, K], source := none, targets := [102] }, { fuid := 2, dims := [K, N], source := some 100, targets := [102] }, { fuid := 3, dims := [M, N], source := some 102, targets := [] }], ops := [{ guid := 102, kind := OpKind.matmul false true, inputs := [0, 1], outputs := [3], predecessors := [], successors := [] }], sorted := true, nextFuid := 4, nextGuid := 103 } from rfl,
    show GraphObj.removeTensor ({ tensors := [{ fuid := 0, dims := [M, K], source := none, targets := [102] }, { fuid := 1, dims := [N, K], source := none, targets := [102] }, { fuid := 2, dims := [K, N], source := some 100, targets := [102] }, { fuid := 3, dims := [M, N], source := some 102, targets := [] }], ops := [{ guid := 102, kind := OpKind.matmul false true, inputs := [0, 1], outputs := [3], predecessors := [], successors := [] }], sorted := true, nextFuid := 4, nextGuid := 103 }) 2 = { tensors := [{ fuid := 0, dims := [M, K], source := none, targets := [102] }, { fuid := 1, dims := [N, K], source := none, targets := [102] }, { fuid := 3, dims := [M, N], source := some 102, targets := [] }], ops := [{ guid := 102, kind := OpKind.matmul false true, inputs := [0, 1], outputs := [3], predecessors := [], successors := [] }], sorted := true, nextFuid := 4, nextGuid := 103 } from rfl,
    eq_self_iff_true, if_true]

set_option maxRecDepth 100000 in
/-- C3: for every `M, K, N`, on the graph `A:[M,K], B0:[N,K],
B = Transpose(B0, perm=(1,0)), C = MatMul(A, B, transA=false, transB=false)`
(spec 8.2), `optimize` leaves exactly one MatMul, reading `(A, B0)` with
`transA = false`, `transB = true`; the Transpose and tensor `B` are gone, the
output is still the tensor with `C`'s identity (fuid 3, shape `[M,N]`,
produced by the new MatMul), and the graph is valid. -/
theorem C3_optimize_right_fusion (M K N : Nat) :
    GraphObj.optimize (mkMatmulB M K N) = { tensors := [{ fuid := 0, dims := [M, K], source := none, targets := [102] }, { fuid := 1, dims := [N, K], source := none, targets := [102] }, { fuid := 3, dims := [M, N], source := some 102, targets := [] }], ops := [{ guid := 102, kind := OpKind.matmul false true, inputs := [0, 1], outputs := [3], predecessors := [], successors := [] }], sorted := false, nextFuid := 4, nextGuid := 103 } ∧
    GraphObj.checkValid (GraphObj.optimize (mkMatmulB M K N)) = true := by
  have e0 : mkMatmulB M K N = { tensors := [{ fuid := 0, dims := [M, K], source := none, targets := [101] }, { fuid := 1, dims := [N, K], source := none, targets := [100] }, { fuid := 2, dims := [K, N], source := some 100, targets := [101] }, { fuid := 3, dims := [M, N], source := some 101, targets := [] }], ops := [{ guid := 100, kind := OpKind.transpose [1, 0], inputs := [1], outputs := [2], predecessors := [], successors := [101] }, { guid := 101, kind := OpKind.matmul false false, inputs := [0, 2], outputs := [3], predecessors := [100], successors := [] }], sorted := false, nextFuid := 4, nextGuid := 102 } := rfl
  have s1 : rrtLoop 12 ({ tensors := [{ fuid := 0, dims := [M, K], source := none, targets := [101] }, { fuid := 1, dims := [N, K], source := none, targets := [100] }, { fuid := 2, dims := [K, N], source := some 100, targets := [101] }, { fuid := 3, dims := [M, N], source := some 101, targets := [] }], ops := [{ guid := 100, kind := OpKind.transpose [1, 0], inputs := [1], outputs := [2], predecessors := [], successors := [101] }, { guid := 101, kind := OpKind.matmul false false, inputs := [0, 2], outputs := [3], predecessors := [100], successors := [] }], sorted := false, nextFuid := 4, nextGuid := 102 }) false 0 = rrtLoop 11 ({ tensors := [{ fuid := 0, dims := [M, K], source := none, targets := [101] }, { fuid := 1, dims := [N, K], source := none, targets := [100] }, { fuid := 2, dims := [K, N], source := some 100, targets := [101] }, { fuid := 3, dims := [M, N], source := some 101, targets := [] }], ops := [{ guid := 100, kind := OpKind.transpose [1, 0], inputs := [1], outputs := [2], predecessors := [], successors := [101] }, { guid := 101, kind := OpKind.matmul false false, inputs := [0, 2], outputs := [3], predecessors := [100], successors := [] }], sorted := false, nextFuid := 4, nextGuid := 102 }) false 1 :=
    rrtLoop_noSecond 11 ({ tensors := [{ fuid := 0, dims := [M, K], source := none, targets := [101] }, { fuid := 1, dims := [N, K], source := none, targets := [100] }, { fuid := 2, dims := [K, N], source := some 100, targets := [101] }, { fuid := 3, dims := [M, N], source := some 101, targets := [] }], ops := [{ guid := 100, kind := OpKind.transpose [1, 0], inputs := [1], outputs := [2], predecessors := [], successors := [101] }, { guid := 101, kind := OpKind.matmul false false, inputs := [0, 2], outputs := [3], predecessors := [100], successors := [] }], sorted := false, nextFuid := 4, nextGuid := 102 }) false 0 ({ guid := 100, kind := OpKind.transpose [1, 0], inputs := [1], outputs := [2], predecessors := [], successors := [101] }) [1, 0] ({ fuid := 2, dims := [K, N], source := some 100, targets := [101] }) ({ guid := 101, kind := OpKind.matmul false false, inputs := [0, 2], outputs := [3], predecessors := [100], successors := [] })
      rfl rfl rfl rfl rfl (by intro q hq; simp at hq)
  have s2 : rrtLoop 11 ({ tensors := [{ fuid := 0, dims := [M, K], source := none, targets := [101] }, { fuid := 1, dims := [N, K], source := none, targets := [100] }, { fuid := 2, dims := [K, N], source := some 100, targets := [101] }, { fuid := 3, dims := [M, N], source := some 101, targets := [] }], ops := [{ guid := 100, kind := OpKind.transpose [1, 0], inputs := [1], outputs := [2], predecessors := [], successors := [101] }, { guid := 101, kind := OpKind.matmul false false, inputs := [0, 2], outputs := [3], predecessors := [100], successors := [] }], sorted := false, nextFuid := 4, nextGuid := 102 }) false 1 = rrtLoop 10 ({ tensors := [{ fuid := 0, dims := [M, K], source := none, targets := [101] }, { fuid := 1, dims := [N, K], source := none, targets := [100] }, { fuid := 2, dims := [K, N], source := some 100, targets := [101] }, { fuid := 3, dims := [M, N], source := some 101, targets := [] }], ops := [{ guid := 100, kind := OpKind.transpose [1, 0], inputs := [1], outputs := [2], predecessors := [], successors := [101] }, { guid := 101, kind := OpKind.matmul false false, inputs := [0, 2], outputs := [3], predecessors := [100], successors := [] }], sorted := false, nextFuid := 4, nextGuid := 102 }) false 2 :=
    rrtLoop_skip 10 ({ tensors := [{ fuid := 0, dims := [M, K], source := none, targets := [101] }, { fuid := 1, dims := [N, K], source := none, targets := [100] }, { fuid := 2, dims := [K, N], source := some 100, targets := [101] }, { fuid := 3, dims := [M, N], source := some 101, targets := [] }], ops := [{ guid := 100, kind := OpKind.transpose [1, 0], inputs := [1], outputs := [2], predecessors := [], successors := [101] }, { guid := 101, kind := OpKind.matmul false false, inputs := [0, 2], outputs := [3], predecessors := [100], successors := [] }], sorted := false, nextFuid := 4, nextGuid := 102 }) false 1 ({ guid := 101, kind := OpKind.matmul false false, inputs := [0, 2], outputs := [3], predecessors := [100], successors := [] }) rfl (by intro p hp; simp at hp)
  have s3 : rrtLoop 10 ({ tensors := [{ fuid := 0, dims := [M, K], source := none, targets := [101] }, { fuid := 1, dims := [N, K], source := none, targets := [100] }, { fuid := 2, dims := [K, N], source := some 100, targets := [101] }, { fuid := 3, dims := [M, N], source := some 101, targets := [] }], ops := [{ guid := 100, kind := OpKind.transpose [1, 0], inputs := [1], outputs := [2], predecessors := [], successors := [101] }, { guid := 101, kind := OpKind.matmul false false, inputs := [0, 2], outputs := [3], predecessors := [100], successors := [] }], sorted := false, nextFuid := 4, nextGuid := 102 }) false 2 = (({ tensors := [{ fuid := 0, dims := [M, K], source := none, targets := [101] }, { fuid := 1, dims := [N, K], source := none, targets := [100] }, { fuid := 2, dims := [K, N], source := some 100, targets := [101] }, { fuid := 3, dims := [M, N], source := some 101, targets := [] }], ops := [{ guid := 100, kind := OpKind.transpose [1, 0], inputs := [1], outputs := [2], predecessors := [], successors := [101] }, { guid := 101, kind := OpKind.matmul false false, inputs := [0, 2], outputs := [3], predecessors := [100], successors := [] }], sorted := false, nextFuid := 4, nextGuid := 102 }), false) :=
    rrtLoop_none 9 ({ tensors := [{ fuid := 0, dims := [M, K], source := none, targets := [101] }, { fuid := 1, dims := [N, K], source := none, targets := [100] }, { fuid := 2, dims := [K, N], source := some 100, targets := [101] }, { fuid := 3, dims := [M, N], source := some 101, targets := [] }], ops := [{ guid := 100, kind := OpKind.transpose [1, 0], inputs := [1], outputs := [2], predecessors := [], successors := [101] }, { guid := 101, kind := OpKind.matmul false false, inputs := [0, 2], outputs := [3], predecessors := [100], successors := [] }], sorted := false, nextFuid := 4, nextGuid := 102 }) false 2 rfl
  have R1 : GraphObj.removeRedundantTranspose ({ tensors := [{ fuid := 0, dims := [M, K], source := none, targets := [101] }, { fuid := 1, dims := [N, K], source := none, targets := [100] }, { fuid := 2, dims := [K, N], source := some 100, targets := [101] }, { fuid := 3, dims := [M, N], source := some 101, targets := [] }], ops := [{ guid := 100, kind := OpKind.transpose [1, 0], inputs := [1], outputs := [2], predecessors := [], successors := [101] }, { guid := 101, kind := OpKind.matmul false false, inputs := [0, 2], outputs := [3], predecessors := [100], successors := [] }], sorted := false, nextFuid := 4, nextGuid := 102 }) = (({ tensors := [{ fuid := 0, dims := [M, K], source := none, targets := [101] }, { fuid := 1, dims := [N, K], source := none, targets := [100] }, { fuid := 2, dims := [K, N], source := some 100, targets := [101] }, { fuid := 3, dims := [M, N], source := some 101, targets := [] }], ops := [{ guid := 100, kind := OpKind.transpose [1, 0], inputs := [1], outputs := [2], predecessors := [], successors := [101] }, { guid := 101, kind := OpKind.matmul false false, inputs := [0, 2], outputs := [3], predecessors := [100], successors := [] }], sorted := true, nextFuid := 4, nextGuid := 102 }), false) :=
    rrt_eq ({ tensors := [{ fuid := 0, dims := [M, K], source := none, targets := [101] }, { fuid := 1, dims := [N, K], source := none, targets := [100] }, { fuid := 2, dims := [K, N], source := some 100, targets := [101] }, { fuid := 3, dims := [M, N], source := some 101, targets := [] }], ops := [{ guid := 100, kind := OpKind.transpose [1, 0], inputs := [1], outputs := [2], predecessors := [], successors := [101] }, { guid := 101, kind := OpKind.matmul false false, inputs := [0, 2], outputs := [3], predecessors := [100], successors := [] }], sorted := false, nextFuid := 4, nextGuid := 102 }) ({ tensors := [{ fuid := 0, dims := [M, K], source := none, targets := [101] }, { fuid := 1, dims := [N, K], source := none, targets := [100] }, { fuid := 2, dims := [K, N], source := some 100, targets := [101] }, { fuid := 3, dims := [M, N], source := some 101, targets := [] }], ops := [{ guid := 100, kind := OpKind.transpose [1, 0], inputs := [1], outputs := [2], predecessors := [], successors := [101] }, { guid := 101, kind := OpKind.matmul false false, inputs := [0, 2], outputs := [3], predecessors := [100], successors := [] }], sorted := false, nextFuid := 4, nextGuid := 102 }) ({ tensors := [{ fuid := 0, dims := [M, K], source := none, targets := [101] }, { fuid := 1, dims := [N, K], source := none, targets := [100] }, { fuid := 2, dims := [K, N], source := some 100, targets := [101] }, { fuid := 3, dims := [M, N], source := some 101, targets := [] }], ops := [{ guid := 100, kind := OpKind.transpose [1, 0], inputs := [1], outputs := [2], predecessors := [], successors := [101] }, { guid := 101, kind := OpKind.matmul false false, inputs := [0, 2], outputs := [3], predecessors := [100], successors := [] }], sorted := true, nextFuid := 4, nextGuid := 102 }) false true ((s1.trans s2).trans s3) rfl
  have f1 : fuseLoop 3 ({ tensors := [{ fuid := 0, dims := [M, K], source := none, targets := [101] }, { fuid := 1, dims := [N, K], source := none, targets := [100] }, { fuid := 2, dims := [K, N], source := some 100, targets := [101] }, { fuid := 3, dims := [M, N], source := some 101, targets := [] }], ops := [{ guid := 100, kind := OpKind.transpose [1, 0], inputs := [1], outputs := [2], predecessors := [], successors := [101] }, { guid := 101, kind := OpKind.matmul false false, inputs := [0, 2], outputs := [3], predecessors := [100], successors := [] }], sorted := true, nextFuid := 4, nextGuid := 102 }) false 0 = fuseLoop 2 ({ tensors := [{ fuid := 0, dims := [M, K], source := none, targets := [101] }, { fuid := 1, dims := [N, K], source := none, targets := [100] }, { fuid := 2, dims := [K, N], source := some 100, targets := [101] }, { fuid := 3, dims := [M, N], source := some 101, targets := [] }], ops := [{ guid := 100, kind := OpKind.transpose [1, 0], inputs := [1], outputs := [2], predecessors := [], successors := [101] }, { guid := 101, kind := OpKind.matmul false false, inputs := [0, 2], outputs := [3], predecessors := [100], successors := [] }], sorted := true, nextFuid := 4, nextGuid := 102 }) false 1 :=
    fuseLoop_skip 2 ({ tensors := [{ fuid := 0, dims := [M, K], source := none, targets := [101] }, { fuid := 1, dims := [N, K], source := none, targets := [100] }, { fuid := 2, dims := [K, N], source := some 100, targets := [101] }, { fuid := 3, dims := [M, N], source := some 101, targets := [] }], ops := [{ guid := 100, kind := OpKind.transpose [1, 0], inputs := [1], outputs := [2], predecessors := [], successors := [101] }, { guid := 101, kind := OpKind.matmul false false, inputs := [0, 2], outputs := [3], predecessors := [100], successors := [] }], sorted := true, nextFuid := 4, nextGuid := 102 }) false 0 ({ guid := 100, kind := OpKind.transpose [1, 0], inputs := [1], outputs := [2], predecessors := [], successors := [101] }) rfl (by intro a b hb; simp at hb)
  have f2 : fuseLoop 2 ({ tensors := [{ fuid := 0, dims := [M, K], source := none, targets := [101] }, { fuid := 1, dims := [N, K], source := none, targets := [100] }, { fuid := 2, dims := [K, N], source := some 100, targets := [101] }, { fuid := 3, dims := [M, N], source := some 101, targets := [] }], ops := [{ guid := 100, kind := OpKind.transpose [1, 0], inputs := [1], outputs := [2], predecessors := [], successors := [101] }, { guid := 101, kind := OpKind.matmul false false, inputs := [0, 2], outputs := [3], predecessors := [100], successors := [] }], sorted := true, nextFuid := 4, nextGuid := 102 }) false 1 = fuseLoop 1 ({ tensors := [{ fuid := 0, dims := [M, K], source := none, targets := [102] }, { fuid := 1, dims := [N, K], source := none, targets := [102] }, { fuid := 3, dims := [M, N], source := some 102, targets := [] }], ops := [{ guid := 102, kind := OpKind.matmul false true, inputs := [0, 1], outputs := [3], predecessors := [], successors := [] }], sorted := true, nextFuid := 4, nextGuid := 103 }) true 2 :=
    fuseLoop_fuseB 1 ({ tensors := [{ fuid := 0, dims := [M, K], source := none, targets := [101] }, { fuid := 1, dims := [N, K], source := none, targets := [100] }, { fuid := 2, dims := [K, N], source := some 100, targets := [101] }, { fuid := 3, dims := [M, N], source := some 101, targets := [] }], ops := [{ guid := 100, kind := OpKind.transpose [1, 0], inputs := [1], outputs := [2], predecessors := [], successors := [101] }, { guid := 101, kind := OpKind.matmul false false, inputs := [0, 2], outputs := [3], predecessors := [100], successors := [] }], sorted := true, nextFuid := 4, nextGuid := 102 }) false 1 ({ guid := 101, kind := OpKind.matmul false false, inputs := [0, 2], outputs := [3], predecessors := [100], successors := [] }) false false ({ tensors := [{ fuid := 0, dims := [M, K], source := none, targets := [102] }, { fuid := 1, dims := [N, K], source := none, targets := [102] }, { fuid := 3, dims := [M, N], source := some 102, targets := [] }], ops := [{ guid := 102, kind := OpKind.matmul false true, inputs := [0, 1], outputs := [3], predecessors := [], successors := [] }], sorted := true, nextFuid := 4, nextGuid := 103 }) rfl rfl rfl
      (fuseCaseB_matmulB M K N)
  have f3 : fuseLoop 1 ({ tensors := [{ fuid := 0, dims := [M, K], source := none, targets := [102] }, { fuid := 1, dims := [N, K], source := none, targets := [102] }, { fuid := 3, dims := [M, N], source := some 102, targets := [] }], ops := [{ guid := 102, kind := OpKind.matmul false true, inputs := [0, 1], outputs := [3], predecessors := [], successors := [] }], sorted := true, nextFuid := 4, nextGuid := 103 }) true 2 = (({ tensors := [{ fuid := 0, dims := [M, K], source := none, targets := [102] }, { fuid := 1, dims := [N, K], source := none, targets := [102] }, { fuid := 3, dims := [M, N], source := some 102, targets := [] }], ops := [{ guid := 102, kind := OpKind.matmul false true, inputs := [0, 1], outputs := [3], predecessors := [], successors := [] }], sorted := true, nextFuid := 4, nextGuid := 103 }), true) :=
    fuseLoop_none 0 ({ tensors := [{ fuid := 0, dims := [M, K], source := none, targets := [102] }, { fuid := 1, dims := [N, K], source := none, targets := [102] }, { fuid := 3, dims := [M, N], source := some 102, targets := [] }], ops := [{ guid := 102, kind := OpKind.matmul false true, inputs := [0, 1], outputs := [3], predecessors := [], successors := [] }], sorted := true, nextFuid := 4, nextGuid := 103 }) true 2 rfl
  have R2 : GraphObj.fuseTransposeIntoMatmul ({ tensors := [{ fuid := 0, dims := [M, K], source := none, targets := [101] }, { fuid := 1, dims := [N, K], source := none, targets := [100] }, { fuid := 2, dims := [K, N], source := some 100, targets := [101] }, { fuid := 3, dims := [M, N], source := some 101, targets := [] }], ops := [{ guid := 100, kind := OpKind.transpose [1, 0], inputs := [1], outputs := [2], predecessors := [], successors := [101] }, { guid := 101, kind := OpKind.matmul false false, inputs := [0, 2], outputs := [3], predecessors := [100], successors := [] }], sorted := true, nextFuid := 4, nextGuid := 102 }) = (({ tensors := [{ fuid := 0, dims := [M, K], source := none, targets := [102] }, { fuid := 1, dims := [N, K], source := none, targets := [102] }, { fuid := 3, dims := [M, N], source := some 102, targets := [] }], ops := [{ guid := 102, kind := OpKind.matmul false true, inputs := [0, 1], outputs := [3], predecessors := [], successors := [] }], sorted := true, nextFuid := 4, nextGuid := 103 }), true) :=
    fuse_eq ({ tensors := [{ fuid := 0, dims := [M, K], source := none, targets := [101] }, { fuid := 1, dims := [N, K], source := none, targets := [100] }, { fuid := 2, dims := [K, N], source := some 100, targets := [101] }, { fuid := 3, dims := [M, N], source := some 101, targets := [] }], ops := [{ guid := 100, kind := OpKind.transpose [1, 0], inputs := [1], outputs := [2], predecessors := [], successors := [101] }, { guid := 101, kind := OpKind.matmul false false, inputs := [0, 2], outputs := [3], predecessors := [100], successors := [] }], sorted := true, nextFuid := 4, nextGuid := 102 }) (({ tensors := [{ fuid := 0, dims := [M, K], source := none, targets := [102] }, { fuid := 1, dims := [N, K], source := none, targets := [102] }, { fuid := 3, dims := [M, N], source := some 102, targets := [] }], ops := [{ guid := 102, kind := OpKind.matmul false true, inputs := [0, 1], outputs := [3], predecessors := [], successors := [] }], sorted := true, nextFuid := 4, nextGuid := 103 }), true) ((f1.trans f2).trans f3)
  have r1 : rrtLoop 6 ({ tensors := [{ fuid := 0, dims := [M, K], source := none, targets := [102] }, { fuid := 1, dims := [N, K], source := none, targets := [102] }, { fuid := 3, dims := [M, N], source := some 102, targets := [] }], ops := [{ guid := 102, kind := OpKind.matmul false true, inputs := [0, 1], outputs := [3], predecessors := [], successors := [] }], sorted := true, nextFuid := 4, nextGuid := 103 }) false 0 = rrtLoop 5 ({ tensors := [{ fuid := 0, dims := [M, K], source := none, targets := [102] }, { fuid := 1, dims := [N, K], source := none, targets := [102] }, { fuid := 3, dims := [M, N], source := some 102, targets := [] }], ops := [{ guid := 102, kind := OpKind.matmul false true, inputs := [0, 1], outputs := [3], predecessors := [], successors := [] }], sorted := true, nextFuid := 4, nextGuid := 103 }) false 1 :=
    rrtLoop_skip 5 ({ tensors := [{ fuid := 0, dims := [M, K], source := none, targets := [102] }, { fuid := 1, dims := [N, K], source := none, targets := [102] }, { fuid := 3, dims := [M, N], source := some 102, targets := [] }], ops := [{ guid := 102, kind := OpKind.matmul false true, inputs := [0, 1], outputs := [3], predecessors := [], successors := [] }], sorted := true, nextFuid := 4, nextGuid := 103 }) false 0 ({ guid := 102, kind := OpKind.matmul false true, inputs := [0, 1], outputs := [3], predecessors := [], successors := [] }) rfl (by intro p hp; simp at hp)
  have r2 : rrtLoop 5 ({ tensors := [{ fuid := 0, dims := [M, K], source := none, targets := [102] }, { fuid := 1, dims := [N, K], source := none, targets := [102] }, { fuid := 3, dims := [M, N], source := some 102, targets := [] }], ops := [{ guid := 102, kind := OpKind.matmul false true, inputs := [0, 1], outputs := [3], predecessors := [], successors := [] }], sorted := true, nextFuid := 4, nextGuid := 103 }) false 1 = (({ tensors := [{ fuid := 0, dims := [M, K], source := none, targets := [102] }, { fuid := 1, dims := [N, K], source := none, targets := [102] }, { fuid := 3, dims := [M, N], source := some 102, targets := [] }], ops := [{ guid := 102, kind := OpKind.matmul false true, inputs := [0, 1], outputs := [3], predecessors := [], successors := [] }], sorted := true, nextFuid := 4, nextGuid := 103 }), false) :=
    rrtLoop_none 4 ({ tensors := [{ fuid := 0, dims := [M, K], source := none, targets := [102] }, { fuid := 1, dims := [N, K], source := none, targets := [102] }, { fuid := 3, dims := [M, N], source := some 102, targets := [] }], ops := [{ guid := 102, kind := OpKind.matmul false true, inputs := [0, 1], outputs := [3], predecessors := [], successors := [] }], sorted := true, nextFuid := 4, nextGuid := 103 }) false 1 rfl
  have R3 : GraphObj.removeRedundantTranspose ({ tensors := [{ fuid := 0, dims := [M, K], source := none, targets := [102] }, { fuid := 1, dims := [N, K], source := none, targets := [102] }, { fuid := 3, dims := [M, N], source := some 102, targets := [] }], ops := [{ guid := 102, kind := OpKind.matmul false true, inputs := [0, 1], outputs := [3], predecessors := [], successors := [] }], sorted := true, nextFuid := 4, nextGuid := 103 }) = (({ tensors := [{ fuid := 0, dims := [M, K], source := none, targets := [102] }, { fuid := 1, dims := [N, K], source := none, targets := [102] }, { fuid := 3, dims := [M, N], source := some 102, targets := [] }], ops := [{ guid := 102, kind := OpKind.matmul false true, inputs := [0, 1], outputs := [3], predecessors := [], successors := [] }], sorted := true, nextFuid := 4, nextGuid := 103 }), false) :=
    rrt_eq ({ tensors := [{ fuid := 0, dims := [M, K], source := none, targets := [102] }, { fuid := 1, dims := [N, K], source := none, targets := [102] }, { fuid := 3, dims := [M, N], source := some 102, targets := [] }], ops := [{ guid := 102, kind := OpKind.matmul false true, inputs := [0, 1], outputs := [3], predecessors := [], successors := [] }], sorted := true, nextFuid := 4, nextGuid := 103 }) ({ tensors := [{ fuid := 0, dims := [M, K], source := none, targets := [102] }, { fuid := 1, dims := [N, K], source := none, targets := [102] }, { fuid := 3, dims := [M, N], source := some 102, targets := [] }], ops := [{ guid := 102, kind := OpKind.matmul false true, inputs := [0, 1], outputs := [3], predecessors := [], successors := [] }], sorted := true, nextFuid := 4, nextGuid := 103 }) ({ tensors := [{ fuid := 0, dims := [M, K], source := none, targets := [102] }, { fuid := 1, dims := [N, K], source := none, targets := [102] }, { fuid := 3, dims := [M, N], source := some 102, targets := [] }], ops := [{ guid := 102, kind := OpKind.matmul false true, inputs := [0, 1], outputs := [3], predecessors := [], successors := [] }], sorted := true, nextFuid := 4, nextGuid := 103 }) false true (r1.trans r2) rfl
  have q1 : fuseLoop 2 ({ tensors := [{ fuid := 0, dims := [M, K], source := none, targets := [102] }, { fuid := 1, dims := [N, K], source := none, targets := [102] }, { fuid := 3, dims := [M, N], source := some 102, targets := [] }], ops := [{ guid := 102, kind := OpKind.matmul false true, inputs := [0, 1], outputs := [3], predecessors := [], successors := [] }], sorted := true, nextFuid := 4, nextGuid := 103 }) false 0 = fuseLoop 1 ({ tensors := [{ fuid := 0, dims := [M, K], source := none, targets := [102] }, { fuid := 1, dims := [N, K], source := none, targets := [102] }, { fuid := 3, dims := [M, N], source := some 102, targets := [] }], ops := [{ guid := 102, kind := OpKind.matmul false true, inputs := [0, 1], outputs := [3], predecessors := [], successors := [] }], sorted := true, nextFuid := 4, nextGuid := 103 }) false 1 :=
    fuseLoop_nofuse 1 ({ tensors := [{ fuid := 0, dims := [M, K], source := none, targets := [102] }, { fuid := 1, dims := [N, K], source := none, targets := [102] }, { fuid := 3, dims := [M, N], source := some 102, targets := [] }], ops := [{ guid := 102, kind := OpKind.matmul false true, inputs := [0, 1], outputs := [3], predecessors := [], successors := [] }], sorted := true, nextFuid := 4, nextGuid := 103 }) false 0 ({ guid := 102, kind := OpKind.matmul false true, inputs := [0, 1], outputs := [3], predecessors := [], successors := [] }) false true rfl rfl rfl rfl
  have q2 : fuseLoop 1 ({ tensors := [{ fuid := 0, dims := [M, K], source := none, targets := [102] }, { fuid := 1, dims := [N, K], source := none, targets := [102] }, { fuid := 3, dims := [M, N], source := some 102, targets := [] }], ops := [{ guid := 102, kind := OpKind.matmul false true, inputs := [0, 1], outputs := [3], predecessors := [], successors := [] }], sorted := true, nextFuid := 4, nextGuid := 103 }) false 1 = (({ tensors := [{ fuid := 0, dims := [M, K], source := none, targets := [102] }, { fuid := 1, dims := [N, K], source := none, targets := [102] }, { fuid := 3, dims := [M, N], source := some 102, targets := [] }], ops := [{ guid := 102, kind := OpKind.matmul false true, inputs := [0, 1], outputs := [3], predecessors := [], successors := [] }], sorted := true, nextFuid := 4, nextGuid := 103 }), false) :=
    fuseLoop_none 0 ({ tensors := [{ fuid := 0, dims := [M, K], source := none, targets := [102] }, { fuid := 1, dims := [N, K], source := none, targets := [102] }, { fuid := 3, dims := [M, N], source := some 102, targets := [] }], ops := [{ guid := 102, kind := OpKind.matmul false true, inputs := [0, 1], outputs := [3], predecessors := [], successors := [] }], sorted := true, nextFuid := 4, nextGuid := 103 }) false 1 rfl
  have R4 : GraphObj.fuseTransposeIntoMatmul ({ tensors := [{ fuid := 0, dims := [M, K], source := none, targets := [102] }, { fuid := 1, dims := [N, K], source := none, targets := [102] }, { fuid := 3, dims := [M, N], source := some 102, targets := [] }], ops := [{ guid := 102, kind := OpKind.matmul false true, inputs := [0, 1], outputs := [3], predecessors := [], successors := [] }], sorted := true, nextFuid := 4, nextGuid := 103 }) = (({ tensors := [{ fuid := 0, dims := [M, K], source := none, targets := [102] }, { fuid := 1, dims := [N, K], source := none, targets := [102] }, { fuid := 3, dims := [M, N], source := some 102, targets := [] }], ops := [{ guid := 102, kind := OpKind.matmul false true, inputs := [0, 1], outputs := [3], predecessors := [], successors := [] }], sorted := true, nextFuid := 4, nextGuid := 103 }), false) :=
    fuse_eq ({ tensors := [{ fuid := 0, dims := [M, K], source := none, targets := [102] }, { fuid := 1, dims := [N, K], source := none, targets := [102] }, { fuid := 3, dims := [M, N], source := some 102, targets := [] }], ops := [{ guid := 102, kind := OpKind.matmul false true, inputs := [0, 1], outputs := [3], predecessors := [], successors := [] }], sorted := true, nextFuid := 4, nextGuid := 103 }) (({ tensors := [{ fuid := 0, dims := [M, K], source := none, targets := [102] }, { fuid := 1, dims := [N, K], source := none, targets := [102] }, { fuid := 3, dims := [M, N], source := some 102, targets := [] }], ops := [{ guid := 102, kind := OpKind.matmul false true, inputs := [0, 1], outputs := [3], predecessors := [], successors := [] }], sorted := true, nextFuid := 4, nextGuid := 103 }), false) (q1.trans q2)
  have L3 : optimizeLoop 3 ({ tensors := [{ fuid := 0, dims := [M, K], source := none, targets := [101] }, { fuid := 1, dims := [N, K], source := none, targets := [100] }, { fuid := 2, dims := [K, N], source := some 100, targets := [101] }, { fuid := 3, dims := [M, N], source := some 101, targets := [] }], ops := [{ guid := 100, kind := OpKind.transpose [1, 0], inputs := [1], outputs := [2], predecessors := [], successors := [101] }, { guid := 101, kind := OpKind.matmul false false, inputs := [0, 2], outputs := [3], predecessors := [100], successors := [] }], sorted := false, nextFuid := 4, nextGuid := 102 }) = optimizeLoop 2 ({ tensors := [{ fuid := 0, dims := [M, K], source := none, targets := [102] }, { fuid := 1, dims := [N, K], source := none, targets := [102] }, { fuid := 3, dims := [M, N], source := some 102, targets := [] }], ops := [{ guid := 102, kind := OpKind.matmul false true, inputs := [0, 1], outputs := [3], predecessors := [], successors := [] }], sorted := true, nextFuid := 4, nextGuid := 103 }) := by
    rw [optimizeLoop_step 2 ({ tensors := [{ fuid := 0, dims := [M, K], source := none, targets := [101] }, { fuid := 1, dims := [N, K], source := none, targets := [100] }, { fuid := 2, dims := [K, N], source := some 100, targets := [101] }, { fuid := 3, dims := [M, N], source := some 101, targets := [] }], ops := [{ guid := 100, kind := OpKind.transpose [1, 0], inputs := [1], outputs := [2], predecessors := [], successors := [101] }, { guid := 101, kind := OpKind.matmul false false, inputs := [0, 2], outputs := [3], predecessors := [100], successors := [] }], sorted := false, nextFuid := 4, nextGuid := 102 }) ({ tensors := [{ fuid := 0, dims := [M, K], source := none, targets := [101] }, { fuid := 1, dims := [N, K], source := none, targets := [100] }, { fuid := 2, dims := [K, N], source := some 100, targets := [101] }, { fuid := 3, dims := [M, N], source := some 101, targets := [] }], ops := [{ guid := 100, kind := OpKind.transpose [1, 0], inputs := [1], outputs := [2], predecessors := [], successors := [101] }, { guid := 101, kind := OpKind.matmul false false, inputs := [0, 2], outputs := [3], predecessors := [100], successors := [] }], sorted := true, nextFuid := 4, nextGuid := 102 }) ({ tensors := [{ fuid := 0, dims := [M, K], source := none, targets := [102] }, { fuid := 1, dims := [N, K], source := none, targets := [102] }, { fuid := 3, dims := [M, N], source := some 102, targets := [] }], ops := [{ guid := 102, kind := OpKind.matmul false true, inputs := [0, 1], outputs := [3], predecessors := [], successors := [] }], sorted := true, nextFuid := 4, nextGuid := 103 }) false true R1 R2]; rfl
  have L2 : optimizeLoop 2 ({ tensors := [{ fuid := 0, dims := [M, K], source := none, targets := [102] }, { fuid := 1, dims := [N, K], source := none, targets := [102] }, { fuid := 3, dims := [M, N], source := some 102, targets := [] }], ops := [{ guid := 102, kind := OpKind.matmul false true, inputs := [0, 1], outputs := [3], predecessors := [], successors := [] }], sorted := true, nextFuid := 4, nextGuid := 103 }) = ({ tensors := [{ fuid := 0, dims := [M, K], source := none, targets := [102] }, { fuid := 1, dims := [N, K], source := none, targets := [102] }, { fuid := 3, dims := [M, N], source := some 102, targets := [] }], ops := [{ guid := 102, kind := OpKind.matmul false true, inputs := [0, 1], outputs := [3], predecessors := [], successors := [] }], sorted := true, nextFuid := 4, nextGuid := 103 }) := by
    rw [optimizeLoop_step 1 ({ tensors := [{ fuid := 0, dims := [M, K], source := none, targets := [102] }, { fuid := 1, dims := [N, K], source := none, targets := [102] }, { fuid := 3, dims := [M, N], source := some 102, targets := [] }], ops := [{ guid := 102, kind := OpKind.matmul false true, inputs := [0, 1], outputs := [3], predecessors := [], successors := [] }], sorted := true, nextFuid := 4, nextGuid := 103 }) ({ tensors := [{ fuid := 0, dims := [M, K], source := none, targets := [102] }, { fuid := 1, dims := [N, K], source := none, targets := [102] }, { fuid := 3, dims := [M, N], source := some 102, targets := [] }], ops := [{ guid := 102, kind := OpKind.matmul false true, inputs := [0, 1], outputs := [3], predecessors := [], successors := [] }], sorted := true, nextFuid := 4, nextGuid := 103 }) ({ tensors := [{ fuid := 0, dims := [M, K], source := none, targets := [102] }, { fuid := 1, dims := [N, K], source := none, targets := [102] }, { fuid := 3, dims := [M, N], source := some 102, targets := [] }], ops := [{ guid := 102, kind := OpKind.matmul false true, inputs := [0, 1], outputs := [3], predecessors := [], successors := [] }], sorted := true, nextFuid := 4, nextGuid := 103 }) false false R3 R4]; rfl
  have hopt : GraphObj.optimize (mkMatmulB M K N) = { tensors := [{ fuid := 0, dims := [M, K], source := none, targets := [102] }, { fuid := 1, dims := [N, K], source := none, targets := [102] }, { fuid := 3, dims := [M, N], source := some 102, targets := [] }], ops := [{ guid := 102, kind := OpKind.matmul false true, inputs := [0, 1], outputs := [3], predecessors := [], successors := [] }], sorted := false, nextFuid := 4, nextGuid := 103 } := by
    rw [e0]
    exact optimize_eq ({ tensors := [{ fuid := 0, dims := [M, K], source := none, targets := [101] }, { fuid := 1, dims := [N, K], source := none, targets := [100] }, { fuid := 2, dims := [K, N], source := some 100, targets := [101] }, { fuid := 3, dims := [M, N], source := some 101, targets := [] }], ops := [{ guid := 100, kind := OpKind.transpose [1, 0], inputs := [1], outputs := [2], predecessors := [], successors := [101] }, { guid := 101, kind := OpKind.matmul false false, inputs := [0, 2], outputs := [3], predecessors := [100], successors := [] }], sorted := false, nextFuid := 4, nextGuid := 102 }) ({ tensors := [{ fuid := 0, dims := [M, K], source := none, targets := [102] }, { fuid := 1, dims := [N, K], source := none, targets := [102] }, { fuid := 3, dims := [M, N], source := some 102, targets := [] }], ops := [{ guid := 102, kind := OpKind.matmul false true, inputs := [0, 1], outputs := [3], predecessors := [], successors := [] }], sorted := true, nextFuid := 4, nextGuid := 103 }) (L3.trans L2)
  exact ⟨hopt, by rw [hopt]; rfl⟩

/-- Witness for C3_optimize_right_fusion at `M = 5`, `K = 3`, `N = 4`. -/
theorem C3_optimize_right_fusion_witness :
    GraphObj.optimize (mkMatmulB 5 3 4) = { tensors := [{ fuid := 0, dims := [5, 3], source := none, targets := [102] }, { fuid := 1, dims := [4, 3], source := none, targets := [102] }, { fuid := 3, dims := [5, 4], source := some 102, targets := [] }], ops := [{ guid := 102, kind := OpKind.matmul false true, inputs := [0, 1], outputs := [3], predecessors := [], successors := [] }], sorted := false, nextFuid := 4, nextGuid := 103 } ∧
    GraphObj.checkValid (GraphObj.optimize (mkMatmulB 5 3 4)) = true :=
  C3_optimize_right_fusion 5 3 4

/-- C8: once `getPtr` has materialized the buffer, every later `alloc` or
`free` fails the fatal `IT_ASSERT(this->ptr == nullptr)` (modelled as
`none`, the abort leaving no successor state), and `getPtr` requested
exactly `peak` bytes from the runtime only on its first call — later calls
return the same cached pointer with the state untouched. -/
theorem C8_commit_spec (s : Allocator) (r : Nat → Nat) (h : s.ptr = none)
    (sz addr sz2 : Nat) :
    (Allocator.getPtr r s).1 = r s.peak ∧
    (Allocator.getPtr r s).2 = { s with ptr := some (r s.peak) } ∧
    Allocator.getPtr r (Allocator.getPtr r s).2 =
      ((Allocator.getPtr r s).1, (Allocator.getPtr r s).2) ∧
    Allocator.alloc (Allocator.getPtr r s).2 sz = none ∧
    Allocator.free (Allocator.getPtr r s).2 addr sz2 = none := by
  simp [Allocator.getPtr, Allocator.alloc, Allocator.free, h]

/-- Witness for C8_commit_spec on the freshly constructed allocator. -/
theorem C8_commit_spec_witness :
    Allocator.init.ptr = none ∧
    ((Allocator.getPtr (fun n => n + 1000) Allocator.init).1 = (fun n : Nat => n + 1000) Allocator.init.peak ∧
    (Allocator.getPtr (fun n => n + 1000) Allocator.init).2 =
      { Allocator.init with ptr := some ((fun n : Nat => n + 1000) Allocator.init.peak) } ∧
    Allocator.getPtr (fun n => n + 1000) (Allocator.getPtr (fun n => n + 1000) Allocator.init).2 =
      ((Allocator.getPtr (fun n => n + 1000) Allocator.init).1,
       (Allocator.getPtr (fun n => n + 1000) Allocator.init).2) ∧
    Allocator.alloc (Allocator.getPtr (fun n => n + 1000) Allocator.init).2 16 = none ∧
    Allocator.free (Allocator.getPtr (fun n => n + 1000) Allocator.init).2 0 8 = none) :=
  ⟨rfl, C8_commit_spec Allocator.init (fun n => n + 1000) rfl 16 0 8⟩

/-- A block that ends exactly at `peak` must be the last entry of the
offset-ordered free list. -/
theorem tail_block_is_last {blocks : List (Nat × Nat)} {peak off bsz : Nat}
    (hc : blocks.Chain' blkRel)
    (hb : ∀ b ∈ blocks, 0 < b.2 ∧ b.1 + b.2 ≤ peak)
    (hmem : (off, bsz) ∈ blocks) (hend : off + bsz = peak) :
    blocks.getLast? = some (off, bsz) := by
  haveI : IsTrans (Nat × Nat) blkRel :=
    ⟨fun a b c hab hbc => by unfold blkRel at *; omega⟩
  rcases List.eq_nil_or_concat' blocks with rfl | ⟨pre, last, rfl⟩
  · cases hmem
  · rw [List.getLast?_concat]
    have hp : (pre ++ [last]).Pairwise blkRel := List.chain'_iff_pairwise.mp hc
    rcases List.mem_append.mp hmem with hin | hin
    · exfalso
      have hrel : blkRel (off, bsz) last := by
        have := (List.pairwise_append.mp hp).2.2
        exact this (off, bsz) hin last (List.mem_singleton_self last)
      have hlast := hb last (List.mem_append_right pre (List.mem_singleton_self last))
      unfold blkRel at hrel
      omega
    · rw [List.mem_singleton.mp hin]

/-- When the last free block does not end at `peak`, no free block does. -/
theorem no_tail_block {blocks : List (Nat × Nat)} {peak off bsz : Nat}
    (hc : blocks.Chain' blkRel)
    (hb : ∀ b ∈ blocks, 0 < b.2 ∧ b.1 + b.2 ≤ peak)
    (hlast : blocks.getLast? = some (off, bsz)) (hne : off + bsz ≠ peak) :
    ∀ b ∈ blocks, b.1 + b.2 ≠ peak := by
  intro b hbmem hbe
  obtain ⟨b1, b2⟩ := b
  have h3 := tail_block_is_last hc hb hbmem hbe
  rw [hlast] at h3
  injection h3 with h3
  injection h3 with h4 h5
  subst h4
  subst h5
  exact hne hbe

/-- Success case of the first-fit scan: the returned offset is that of the
first block large enough (everything before it is too small), and the list
keeps the remainder at `addr + sz` in place of the carved block. -/
theorem firstFit_some {sz addr : Nat} {blocks2 : List (Nat × Nat)} :
    ∀ {blocks : List (Nat × Nat)}, firstFit blocks sz = some (addr, blocks2) →
    ∃ pre bsz post, blocks = pre ++ (addr, bsz) :: post ∧ sz ≤ bsz ∧
      (∀ b ∈ pre, b.2 < sz) ∧
      blocks2 = pre ++ (if sz < bsz then [(addr + sz, bsz - sz)] else []) ++ post := by
  intro blocks
  induction blocks generalizing blocks2 with
  | nil => intro h; cases h
  | cons hd tl ih =>
    intro h
    obtain ⟨off, bsz⟩ := hd
    unfold firstFit at h
    by_cases hle : sz ≤ bsz
    · rw [if_pos hle] at h
      injection h with h
      injection h with h1 h2
      subst h1
      refine ⟨[], bsz, tl, rfl, hle, by simp, ?_⟩
      by_cases hlt : sz < bsz
      · rw [if_pos hlt] at h2 ⊢; rw [← h2]; rfl
      · rw [if_neg hlt] at h2 ⊢; rw [← h2]; rfl
    · rw [if_neg hle] at h
      rcases hrec : firstFit tl sz with _ | ⟨addr2, rest2⟩
      · rw [hrec] at h; cases h
      · rw [hrec] at h
        injection h with h
        injection h with h1 h2
        subst h1
        obtain ⟨pre, bsz2, post, hdec, hle2, hsmall, hres⟩ := ih hrec
        refine ⟨(off, bsz) :: pre, bsz2, post, by simp [hdec], hle2, ?_, ?_⟩
        · intro b hbm
          rcases List.mem_cons.mp hbm with rfl | hbm2
          · omega
          · exact hsmall b hbm2
        · rw [← h2, hres]; rfl

/-- Failure case of the first-fit scan: every block is too small. -/
theorem firstFit_none {sz : Nat} :
    ∀ {blocks : List (Nat × Nat)}, firstFit blocks sz = none →
    ∀ b ∈ blocks, b.2 < sz := by
  intro blocks
  induction blocks with
  | nil => intro _ b hb; cases hb
  | cons hd tl ih =>
    intro h b hb
    obtain ⟨off, bsz⟩ := hd
    unfold firstFit at h
    by_cases hle : sz ≤ bsz
    · rw [if_pos hle] at h; cases h
    · rw [if_neg hle] at h
      rcases hrec : firstFit tl sz with _ | p
      · rcases List.mem_cons.mp hb with rfl | hbm
        · omega
        · exact ih hrec b hbm
      · rw [hrec] at h; cases h

/-- Case analysis of the aligned allocation body on a state satisfying the
free-list invariants: tail-block reuse or extension when a free block ends
at `peak`, otherwise first fit, otherwise arena extension; `used` always
grows by the (aligned) request. -/
theorem allocAligned_spec (s : Allocator) (a : Nat)
    (hchain : s.freeBlocks.Chain' blkRel)
    (hbounds : ∀ b ∈ s.freeBlocks, 0 < b.2 ∧ b.1 + b.2 ≤ s.peak) :
    ∃ addr s2, s.allocAligned a = (addr, s2) ∧
      s2.used = s.used + a ∧ s2.ptr = s.ptr ∧
      ((∃ pre off bsz, s.freeBlocks = pre ++ [(off, bsz)] ∧ off + bsz = s.peak ∧
          addr = off ∧
          ((a ≤ bsz ∧ s2.peak = s.peak ∧
             s2.freeBlocks = pre ++ (if a < bsz then [(off + a, bsz - a)] else [])) ∨
           (bsz < a ∧ s2.peak = s.peak + (a - bsz) ∧ s2.freeBlocks = pre))) ∨
       ((∀ b ∈ s.freeBlocks, b.1 + b.2 ≠ s.peak) ∧
          ∃ pre bsz post, s.freeBlocks = pre ++ (addr, bsz) :: post ∧ a ≤ bsz ∧
            (∀ b ∈ pre, b.2 < a) ∧ s2.peak = s.peak ∧
            s2.freeBlocks = pre ++ (if a < bsz then [(addr + a, bsz - a)] else []) ++ post) ∨
       ((∀ b ∈ s.freeBlocks, b.1 + b.2 ≠ s.peak) ∧ (∀ b ∈ s.freeBlocks, b.2 < a) ∧
          addr = s.peak ∧ s2.peak = s.peak + a ∧ s2.freeBlocks = s.freeBlocks)) := by
  rcases List.eq_nil_or_concat' s.freeBlocks with hnil | ⟨pre, last, hdec⟩
  · have hl : s.freeBlocks.getLast? = none := by rw [hnil]; rfl
    have hff : firstFit s.freeBlocks a = none := by rw [hnil]; rfl
    refine ⟨s.peak, { s with peak := s.peak + a, used := s.used + a },
      ?_, rfl, rfl, Or.inr (Or.inr ⟨?_, ?_, rfl, rfl, rfl⟩)⟩
    · simp only [Allocator.allocAligned, hl, hff]
    · intro b hb; rw [hnil] at hb; cases hb
    · intro b hb; rw [hnil] at hb; cases hb
  · obtain ⟨off, bsz⟩ := last
    have hlast : s.freeBlocks.getLast? = some (off, bsz) := by
      rw [hdec]; exact List.getLast?_concat pre
    have hdl : s.freeBlocks.dropLast = pre := by
      rw [hdec]; exact List.dropLast_concat
    by_cases hpk : off + bsz = s.peak
    · by_cases hle : a ≤ bsz
      · refine ⟨off,
          { s with freeBlocks := pre ++ (if a < bsz then [(off + a, bsz - a)] else []),
                   used := s.used + a },
          ?_, rfl, rfl,
          Or.inl ⟨pre, off, bsz, hdec, hpk, rfl, Or.inl ⟨hle, rfl, rfl⟩⟩⟩
        simp only [Allocator.allocAligned, hlast]
        rw [if_pos hpk, if_pos hle, hdl]
      · refine ⟨off,
          { s with freeBlocks := pre, peak := s.peak + (a - bsz), used := s.used + a },
          ?_, rfl, rfl,
          Or.inl ⟨pre, off, bsz, hdec, hpk, rfl, Or.inr ⟨by omega, rfl, rfl⟩⟩⟩
        simp only [Allocator.allocAligned, hlast]
        rw [if_pos hpk, if_neg hle, hdl]
    · have hnotail : ∀ b ∈ s.freeBlocks, b.1 + b.2 ≠ s.peak :=
        no_tail_block hchain hbounds hlast hpk
      rcases hff : firstFit s.freeBlocks a with _ | ⟨addr, blocks2⟩
      · refine ⟨s.peak, { s with peak := s.peak + a, used := s.used + a },
          ?_, rfl, rfl,
          Or.inr (Or.inr ⟨hnotail, firstFit_none hff, rfl, rfl, rfl⟩)⟩
        simp only [Allocator.allocAligned, hlast, hff]
        rw [if_neg hpk]
      · obtain ⟨pre2, bsz2, post2, hdec2, hle2, hsmall2, hres2⟩ := firstFit_some hff
        refine ⟨addr, { s with freeBlocks := blocks2, used := s.used + a },
          ?_, rfl, rfl,
          Or.inr (Or.inl ⟨hnotail, pre2, bsz2, post2, hdec2, hle2, hsmall2, rfl, hres2⟩)⟩
        simp only [Allocator.allocAligned, hlast, hff]
        rw [if_neg hpk]

/-- C4: `alloc` first rounds the request up to the smallest multiple of the
8-byte alignment at least as large (stated for request sizes below `2^63`,
where the `size_t` arithmetic cannot wrap), then — if a free block ends
exactly at `peak` — carves from that block's low end (keeping the remainder)
when it is large enough, or returns its offset and extends `peak` by exactly
the shortfall; otherwise it returns the offset of the first (lowest-offset)
free block of sufficient size, keeping the remainder at `offset + size`;
otherwise it returns the old `peak` and advances `peak` by the aligned size.
In every case `used` grows by the aligned size. -/
theorem C4_alloc_spec (s : Allocator) (sz0 a : Nat)
    (hinv : FreeInv s) (hptr : s.ptr = none) (hal : s.alignment = 8)
    (ha : getAlignedSize s.alignment sz0 = a) :
    (sz0 ≤ 2 ^ 63 → a = 8 * ((sz0 + 7) / 8)) ∧
    ∃ addr s2, s.alloc sz0 = some (addr, s2) ∧
      s2.used = s.used + a ∧ s2.ptr = none ∧
      ((∃ pre off bsz, s.freeBlocks = pre ++ [(off, bsz)] ∧ off + bsz = s.peak ∧
          addr = off ∧
          ((a ≤ bsz ∧ s2.peak = s.peak ∧
             s2.freeBlocks = pre ++ (if a < bsz then [(off + a, bsz - a)] else [])) ∨
           (bsz < a ∧ s2.peak = s.peak + (a - bsz) ∧ s2.freeBlocks = pre))) ∨
       ((∀ b ∈ s.freeBlocks, b.1 + b.2 ≠ s.peak) ∧
          ∃ pre bsz post, s.freeBlocks = pre ++ (addr, bsz) :: post ∧ a ≤ bsz ∧
            (∀ b ∈ pre, b.2 < a) ∧ s2.peak = s.peak ∧
            s2.freeBlocks = pre ++ (if a < bsz then [(addr + a, bsz - a)] else []) ++ post) ∨
       ((∀ b ∈ s.freeBlocks, b.1 + b.2 ≠ s.peak) ∧ (∀ b ∈ s.freeBlocks, b.2 < a) ∧
          addr = s.peak ∧ s2.peak = s.peak + a ∧ s2.freeBlocks = s.freeBlocks)) := by
  obtain ⟨hchain, hbounds⟩ := hinv
  constructor
  · intro hsmall
    rw [← ha, hal]
    unfold getAlignedSize
    have hW : W = 18446744073709551616 := by norm_num [W]
    rw [hW]
    omega
  · have e : s.alloc sz0 = some (s.allocAligned a) := by
      unfold Allocator.alloc
      rw [hptr, ha]
      rfl
    obtain ⟨addr, s2, he, hu, hp, hcase⟩ := allocAligned_spec s a hchain hbounds
    refine ⟨addr, s2, ?_, hu, ?_, hcase⟩
    · rw [e, he]
    · rw [hp, hptr]

/-- Witness for C4_alloc_spec at the spec §8.5 state: after alloc 16,
alloc 32, alloc 16 and free of the middle 32 (`c4Scenario`), the free list
is `[(16, 32)]` with `peak = 64` and `used = 32`; the allocation of 8 bytes
returns offset 16 — the freed block's start — with the remaining 24 bytes
kept at offset 24. -/
theorem C4_alloc_spec_witness :
    (FreeInv { used := 32, peak := 64, alignment := 8, ptr := none,
               freeBlocks := [(16, 32)] } ∧
     getAlignedSize 8 8 = 8 ∧
     c4Scenario = some (16, { used := 40, peak := 64, alignment := 8, ptr := none,
                              freeBlocks := [(24, 24)] })) ∧
    ((8 ≤ 2 ^ 63 → 8 = 8 * ((8 + 7) / 8)) ∧
    ∃ addr s2,
      Allocator.alloc { used := 32, peak := 64, alignment := 8, ptr := none,
                        freeBlocks := [(16, 32)] } 8 = some (addr, s2) ∧
      s2.used = 32 + 8 ∧ s2.ptr = none ∧
      ((∃ pre off bsz, [((16 : Nat), (32 : Nat))] = pre ++ [(off, bsz)] ∧ off + bsz = 64 ∧
          addr = off ∧
          ((8 ≤ bsz ∧ s2.peak = 64 ∧
             s2.freeBlocks = pre ++ (if 8 < bsz then [(off + 8, bsz - 8)] else [])) ∨
           (bsz < 8 ∧ s2.peak = 64 + (8 - bsz) ∧ s2.freeBlocks = pre))) ∨
       ((∀ b ∈ [((16 : Nat), (32 : Nat))], b.1 + b.2 ≠ 64) ∧
          ∃ pre bsz post, [((16 : Nat), (32 : Nat))] = pre ++ (addr, bsz) :: post ∧ 8 ≤ bsz ∧
            (∀ b ∈ pre, b.2 < 8) ∧ s2.peak = 64 ∧
            s2.freeBlocks = pre ++ (if 8 < bsz then [(addr + 8, bsz - 8)] else []) ++ post) ∨
       ((∀ b ∈ [((16 : Nat), (32 : Nat))], b.1 + b.2 ≠ 64) ∧
          (∀ b ∈ [((16 : Nat), (32 : Nat))], b.2 < 8) ∧
          addr = 64 ∧ s2.peak = 64 + 8 ∧ s2.freeBlocks = [(16, 32)]))) :=
  ⟨⟨⟨List.chain'_singleton _, by decide⟩, by decide, by decide⟩,
    C4_alloc_spec { used := 32, peak := 64, alignment := 8, ptr := none,
                    freeBlocks := [(16, 32)] } 8 8 ⟨List.chain'_singleton _, by decide⟩
      rfl rfl (by decide)⟩

/-- Coverage of the empty free list. -/
theorem covered_nil (x : Nat) : covered [] x ↔ False := by
  simp [covered]

/-- Coverage of a non-empty free list, block by block. -/
theorem covered_cons (o s : Nat) (rest : List (Nat × Nat)) (x : Nat) :
    covered ((o, s) :: rest) x ↔ (o ≤ x ∧ x < o + s) ∨ covered rest x := by
  simp [covered, List.mem_cons, or_and_right, exists_or, exists_eq_left]

/-- Merged insertion never produces an empty list. -/
theorem consMerge_ne_nil (o s : Nat) (l : List (Nat × Nat)) :
    consMerge o s l ≠ [] := by
  cases l with
  | nil => simp [consMerge]
  | cons hd tl =>
    obtain ⟨o2, s2⟩ := hd
    simp only [consMerge]
    split <;> simp

/-- Merged insertion covers exactly the new block's bytes plus the old
ones. -/
theorem covered_consMerge (o s : Nat) (l : List (Nat × Nat)) (x : Nat) :
    covered (consMerge o s l) x ↔ (o ≤ x ∧ x < o + s) ∨ covered l x := by
  cases l with
  | nil => simp [consMerge, covered_cons, covered_nil]
  | cons hd tl =>
    obtain ⟨o2, s2⟩ := hd
    simp only [consMerge]
    by_cases h : o + s = o2
    · rw [if_pos h]
      simp only [covered_cons]
      by_cases hP : covered tl x <;> simp [hP] <;> omega
    · rw [if_neg h]
      simp only [covered_cons]

/-- Offsets after merged insertion come from the new block or the old
list. -/
theorem consMerge_offsets (o s : Nat) (l : List (Nat × Nat)) :
    ∀ b ∈ consMerge o s l, b.1 = o ∨ b.1 ∈ l.map Prod.fst := by
  intro b hb
  cases l with
  | nil =>
    simp [consMerge] at hb
    simp [hb]
  | cons hd tl =>
    obtain ⟨o2, s2⟩ := hd
    simp only [consMerge] at hb
    by_cases h : o + s = o2
    · rw [if_pos h] at hb
      rcases List.mem_cons.mp hb with rfl | hbm
      · simp
      · right
        rw [List.map_cons]
        exact List.mem_cons_of_mem _ (List.mem_map_of_mem Prod.fst hbm)
    · rw [if_neg h] at hb
      rcases List.mem_cons.mp hb with rfl | hbm
      · simp
      · rcases List.mem_cons.mp hbm with rfl | hbm2
        · right; rw [List.map_cons]; exact List.mem_cons_self _ _
        · right
          rw [List.map_cons]
          exact List.mem_cons_of_mem _ (List.mem_map_of_mem Prod.fst hbm2)

/-- Merged insertion keeps the list sorted, disjoint, non-adjacent and its
blocks non-empty, provided the new block is non-empty and ends at or before
every existing block. -/
theorem consMerge_pairwise (o s : Nat) (l : List (Nat × Nat)) (hs : 0 < s)
    (hp : l.Pairwise blkRel) (hpos : ∀ b ∈ l, 0 < b.2)
    (hle : ∀ b ∈ l, o + s ≤ b.1) :
    (consMerge o s l).Pairwise blkRel ∧ ∀ b ∈ consMerge o s l, 0 < b.2 := by
  cases l with
  | nil =>
    refine ⟨List.pairwise_singleton _ _, ?_⟩
    intro b hb
    simp [consMerge] at hb
    simp [hb]
    omega
  | cons hd tl =>
    obtain ⟨o2, s2⟩ := hd
    obtain ⟨hrel, hptl⟩ := List.pairwise_cons.mp hp
    simp only [consMerge]
    by_cases h : o + s = o2
    · rw [if_pos h]
      constructor
      · rw [List.pairwise_cons]
        refine ⟨?_, hptl⟩
        intro b hb
        have h2 := hrel b hb
        unfold blkRel at *
        simp at *
        omega
      · intro b hb
        rcases List.mem_cons.mp hb with rfl | hbm
        · have := hpos (o2, s2) (List.mem_cons_self _ _)
          simp at *
          omega
        · exact hpos b (List.mem_cons_of_mem _ hbm)
    · rw [if_neg h]
      have hlt : o + s < o2 := by
        have := hle (o2, s2) (List.mem_cons_self _ _)
        simp at this
        omega
      constructor
      · rw [List.pairwise_cons]
        constructor
        · intro b hb
          rcases List.mem_cons.mp hb with rfl | hbm
          · unfold blkRel; simpa using hlt
          · have h2 := hrel b hbm
            unfold blkRel at *
            simp at *
            omega
        · exact hp
      · intro b hb
        rcases List.mem_cons.mp hb with rfl | hbm
        · simpa using hs
        · exact hpos b hbm

/-- Insert-and-coalesce never leaves the free list empty. -/
theorem freeIns_ne_nil (blocks : List (Nat × Nat)) (addr sz : Nat) :
    freeIns blocks addr sz ≠ [] := by
  cases blocks with
  | nil => simp [freeIns]
  | cons hd tl =>
    obtain ⟨o, s⟩ := hd
    simp only [freeIns]
    split
    · exact consMerge_ne_nil _ _ _
    · split
      · exact consMerge_ne_nil _ _ _
      · exact consMerge_ne_nil _ _ _

/-- Every offset in the coalesced free list is the freed offset or an
offset that was already present. -/
theorem freeIns_offsets : ∀ (blocks : List (Nat × Nat)) (addr sz : Nat),
    ∀ b ∈ freeIns blocks addr sz, b.1 = addr ∨ b.1 ∈ blocks.map Prod.fst := by
  intro blocks addr sz
  induction blocks with
  | nil =>
    intro b hb
    simp [freeIns] at hb
    simp [hb]
  | cons hd tl ih =>
    obtain ⟨o, s⟩ := hd
    intro b hb
    simp only [freeIns] at hb
    split at hb
    · exact consMerge_offsets addr sz _ b hb
    · split at hb
      · rename_i h1 h2
        rcases consMerge_offsets addr sz tl b hb with h3 | h3
        · exact Or.inl h3
        · right
          rw [List.map_cons]
          exact List.mem_cons_of_mem _ h3
      · rcases consMerge_offsets o s _ b hb with h3 | h3
        · right; rw [List.map_cons, h3]; exact List.mem_cons_self _ _
        · obtain ⟨c, hc, hcfst⟩ := List.mem_map.mp h3
          rcases ih c hc with h4 | h4
          · left; rw [← hcfst]; exact h4
          · right
            rw [List.map_cons, ← hcfst]
            exact List.mem_cons_of_mem _ h4

/-- Free-list coverage after insert-and-coalesce is the old coverage plus
the freed byte range, provided the freed offset is not already a key (the
map assignment would otherwise overwrite). -/
theorem covered_freeIns : ∀ (blocks : List (Nat × Nat)) (addr sz : Nat),
    (∀ b ∈ blocks, b.1 ≠ addr) → ∀ x,
    covered (freeIns blocks addr sz) x ↔
      (covered blocks x ∨ (addr ≤ x ∧ x < addr + sz)) := by
  intro blocks addr sz
  induction blocks with
  | nil =>
    intro _ x
    simp only [freeIns, covered_cons, covered_nil]
    tauto
  | cons hd tl ih =>
    obtain ⟨o, s⟩ := hd
    intro hfresh x
    have hfresh2 : ∀ b ∈ tl, b.1 ≠ addr :=
      fun b hb => hfresh b (List.mem_cons_of_mem _ hb)
    have hne : o ≠ addr := by
      have := hfresh (o, s) (List.mem_cons_self _ _)
      simpa using this
    simp only [freeIns]
    split
    · rw [covered_consMerge]
      tauto
    · split
      · rename_i h1 h2
        exact absurd h2.symm hne
      · rw [covered_consMerge, ih hfresh2 x, covered_cons]
        tauto

/-- Insert-and-coalesce keeps the free list sorted, disjoint, non-adjacent
and its blocks non-empty, provided the freed range is non-empty and
disjoint from every existing block. -/
theorem freeIns_pairwise : ∀ (blocks : List (Nat × Nat)) (addr sz : Nat),
    0 < sz → blocks.Pairwise blkRel → (∀ b ∈ blocks, 0 < b.2) →
    (∀ b ∈ blocks, b.1 + b.2 ≤ addr ∨ addr + sz ≤ b.1) →
    (freeIns blocks addr sz).Pairwise blkRel ∧
      ∀ b ∈ freeIns blocks addr sz, 0 < b.2 := by
  intro blocks addr sz hsz
  induction blocks with
  | nil =>
    intro _ _ _
    refine ⟨List.pairwise_singleton _ _, ?_⟩
    intro b hb
    simp [freeIns] at hb
    simp [hb]
    omega
  | cons hd tl ih =>
    obtain ⟨o, s⟩ := hd
    intro hp hpos hdisj
    obtain ⟨hrel, hptl⟩ := List.pairwise_cons.mp hp
    have hs0 : 0 < s := by
      have := hpos (o, s) (List.mem_cons_self _ _); simpa using this
    have hd0 : o + s ≤ addr ∨ addr + sz ≤ o := by
      have := hdisj (o, s) (List.mem_cons_self _ _); simpa using this
    have hpos2 : ∀ b ∈ tl, 0 < b.2 := fun b hb => hpos b (List.mem_cons_of_mem _ hb)
    have hdisj2 : ∀ b ∈ tl, b.1 + b.2 ≤ addr ∨ addr + sz ≤ b.1 :=
      fun b hb => hdisj b (List.mem_cons_of_mem _ hb)
    simp only [freeIns]
    split
    · rename_i h1
      refine consMerge_pairwise addr sz _ hsz hp hpos ?_
      intro b hb
      rcases List.mem_cons.mp hb with rfl | hbm
      · simp; omega
      · have h2 := hrel b hbm
        unfold blkRel at h2
        simp at h2
        omega
    · split
      · rename_i h1 h2
        exfalso
        omega
      · rename_i h1 h2
        obtain ⟨ihp, ihpos⟩ := ih hptl hpos2 hdisj2
        refine consMerge_pairwise o s _ hs0 ihp ihpos ?_
        intro b hb
        rcases freeIns_offsets tl addr sz b hb with h3 | h3
        · omega
        · obtain ⟨c, hc, hcfst⟩ := List.mem_map.mp h3
          have h4 := hrel c hc
          unfold blkRel at h4
          omega

/-- Chain-form wrapper of freeIns_pairwise. -/
theorem freeIns_chain (blocks : List (Nat × Nat)) (addr sz : Nat)
    (hsz : 0 < sz) (hc : blocks.Chain' blkRel) (hpos : ∀ b ∈ blocks, 0 < b.2)
    (hdisj : ∀ b ∈ blocks, b.1 + b.2 ≤ addr ∨ addr + sz ≤ b.1) :
    (freeIns blocks addr sz).Chain' blkRel ∧
      ∀ b ∈ freeIns blocks addr sz, 0 < b.2 := by
  haveI : IsTrans (Nat × Nat) blkRel :=
    ⟨fun a b c hab hbc => by unfold blkRel at *; omega⟩
  have h := freeIns_pairwise blocks addr sz hsz
    (List.chain'_iff_pairwise.mp hc) hpos hdisj
  exact ⟨List.chain'_iff_pairwise.mpr h.1, h.2⟩

/-- C5: `free` rounds the size up to a multiple of the alignment, decrements
`used` by that amount, inserts the block into the free list and coalesces it
with immediate right and left neighbors: the freed bytes become exactly the
additional covered bytes, and the offset-ordered, disjoint, non-adjacent
shape of the free list is restored.  In particular the §8.6 scenario —
alloc three 16-byte blocks at offsets 0, 16, 32, then free(0,16),
free(32,16), free(16,16) — ends with the single free block `(0, 48)`,
`used = 0` and `peak = 48`. -/
theorem C5_free_spec (s : Allocator) (addr sz0 a : Nat)
    (hinv : FreeInv s) (hptr : s.ptr = none) (hal : s.alignment = 8)
    (ha : getAlignedSize s.alignment sz0 = a) (hpos : 0 < a)
    (hdisj : ∀ b ∈ s.freeBlocks, b.1 + b.2 ≤ addr ∨ addr + a ≤ b.1) :
    ∃ s2, s.free addr sz0 = some s2 ∧
      s2.used = s.used - a ∧ s2.peak = s.peak ∧ s2.ptr = none ∧
      (∀ x, covered s2.freeBlocks x ↔
        (covered s.freeBlocks x ∨ (addr ≤ x ∧ x < addr + a))) ∧
      s2.freeBlocks.Chain' blkRel ∧ (∀ b ∈ s2.freeBlocks, 0 < b.2) ∧
      c5Scenario = some (0, 16, 32,
        { used := 0, peak := 48, alignment := 8, ptr := none,
          freeBlocks := [(0, 48)] }) := by
  obtain ⟨hchain, hbounds⟩ := hinv
  have hbpos : ∀ b ∈ s.freeBlocks, 0 < b.2 := fun b hb => (hbounds b hb).1
  have hfresh : ∀ b ∈ s.freeBlocks, b.1 ≠ addr := by
    intro b hb heq
    rcases hdisj b hb with h | h
    · have := hbpos b hb; omega
    · omega
  have e : s.free addr sz0 = some (s.freeAligned addr a) := by
    unfold Allocator.free
    rw [hptr, ha]
    rfl
  refine ⟨s.freeAligned addr a, e, rfl, rfl, hptr, ?_, ?_, ?_, by decide⟩
  · intro x
    exact covered_freeIns s.freeBlocks addr a hfresh x
  · exact (freeIns_chain s.freeBlocks addr a hpos hchain hbpos hdisj).1
  · exact (freeIns_chain s.freeBlocks addr a hpos hchain hbpos hdisj).2

/-- Witness for C5_free_spec: freeing `(16, 16)` on the state whose free
list is `[(0, 16)]` coalesces with the left neighbor into `(0, 32)`. -/
theorem C5_free_spec_witness :
    (FreeInv { used := 48, peak := 48, alignment := 8, ptr := none,
               freeBlocks := [(0, 16)] } ∧
     getAlignedSize 8 16 = 16 ∧ (0 : Nat) < 16 ∧
     (∀ b ∈ [((0 : Nat), (16 : Nat))], b.1 + b.2 ≤ 16 ∨ 16 + 16 ≤ b.1)) ∧
    ∃ s2,
      Allocator.free { used := 48, peak := 48, alignment := 8, ptr := none,
                       freeBlocks := [(0, 16)] } 16 16 = some s2 ∧
      s2.used = 48 - 16 ∧ s2.peak = 48 ∧ s2.ptr = none ∧
      (∀ x, covered s2.freeBlocks x ↔
        (covered [((0 : Nat), (16 : Nat))] x ∨ (16 ≤ x ∧ x < 16 + 16))) ∧
      s2.freeBlocks.Chain' blkRel ∧ (∀ b ∈ s2.freeBlocks, 0 < b.2) ∧
      c5Scenario = some (0, 16, 32,
        { used := 0, peak := 48, alignment := 8, ptr := none,
          freeBlocks := [(0, 48)] }) :=
  ⟨⟨⟨List.chain'_singleton _, by decide⟩, by decide, by decide, by decide⟩,
    C5_free_spec { used := 48, peak := 48, alignment := 8, ptr := none,
                   freeBlocks := [(0, 16)] } 16 16 16
      ⟨List.chain'_singleton _, by decide⟩ rfl rfl (by decide) (by decide) (by decide)⟩

/-- Readiness extracted from the emission condition of the sorting pass:
every input's existing source is already among the emitted guids. -/
theorem topoPass_ready {g : GraphObj} {op : OperatorObj} {acc : List OperatorObj}
    (h : (op.inputs.all (fun t =>
      match g.tensorSource t with
      | none => true
      | some s => (acc.map (fun o => o.guid)).contains s)) = true) :
    ∀ t ∈ op.inputs, ∀ s2, g.tensorSource t = some s2 →
      s2 ∈ acc.map (fun o => o.guid) := by
  intro t ht s2 hs2
  have h2 := List.all_eq_true.mp h t ht
  rw [hs2] at h2
  simpa using h2

/-- Appending a ready operator preserves the sortedness property. -/
theorem orderedOps_append (g : GraphObj) (acc : List OperatorObj) (op : OperatorObj)
    (h : OrderedOps g acc)
    (hready : ∀ t ∈ op.inputs, ∀ s2, g.tensorSource t = some s2 →
      s2 ∈ acc.map (fun o => o.guid)) :
    OrderedOps g (acc ++ [op]) := by
  intro i t ht s2 hs2
  by_cases hi : (i : Nat) < acc.length
  · rw [List.get_append (i : Nat) hi] at ht
    obtain ⟨j, hji, hguid⟩ := h ⟨(i : Nat), hi⟩ t ht s2 hs2
    refine ⟨⟨(j : Nat), by simp; omega⟩, by simpa using hji, ?_⟩
    have hj2 : (j : Nat) < acc.length := j.isLt
    rw [List.get_append (j : Nat) hj2]
    exact hguid
  · have hlen : (i : Nat) = acc.length := by
      have := i.isLt
      simp at this
      omega
    have hop : (acc ++ [op]).get i = op := by
      have e : (acc ++ [op]).get i = (acc ++ [op]).get ⟨acc.length, by simp⟩ := by
        congr 1
        exact Fin.ext hlen
      rw [e]
      simp [List.getElem_concat_length]
    rw [hop] at ht
    obtain ⟨c, hc, hcg⟩ := List.mem_map.mp (hready t ht s2 hs2)
    obtain ⟨⟨j, hj⟩, hjc⟩ := List.mem_iff_get.mp hc
    refine ⟨⟨j, by simp; omega⟩, by simp; omega, ?_⟩
    rw [List.get_append j hj, hjc]
    exact hcg

/-- A pass of the sorting loop preserves the sortedness property of the
emitted list. -/
theorem topoPass_ordered (g : GraphObj) :
    ∀ (pending acc : List OperatorObj), OrderedOps g acc →
    OrderedOps g (topoPass g pending acc) := by
  intro pending
  induction pending with
  | nil => intro acc h; exact h
  | cons op rest ih =>
    intro acc h
    simp only [topoPass]
    split
    · rename_i hcond
      have hcond2 := (Bool.and_eq_true _ _).mp hcond
      exact ih _ (orderedOps_append g acc op h (topoPass_ready hcond2.2))
    · exact ih acc h

/-- The fixpoint loop of the sort preserves the sortedness property. -/
theorem topoLoop_ordered (g : GraphObj) :
    ∀ (fuel : Nat) (acc : List OperatorObj), OrderedOps g acc →
    ∀ l, topoLoop g fuel acc = some l → OrderedOps g l := by
  intro fuel
  induction fuel with
  | zero =>
    intro acc h l hl
    simp only [topoLoop] at hl
    split at hl
    · injection hl with hl
      rw [← hl]
      exact h
    · cases hl
  | succ fuel ih =>
    intro acc h l hl
    simp only [topoLoop] at hl
    split at hl
    · injection hl with hl
      rw [← hl]
      exact h
    · split at hl
      · cases hl
      · exact ih _ (topoPass_ordered g g.ops acc h) l hl

/-- C6 counterexample: the `sorted` flag can be stale.  `mkStaleSorted` is
reached through the public interface (a successful `topo_sort`, then
`removeOperator`, which does not clear the flag); on it `topo_sort` returns
`true` immediately, yet the remaining operator's input has an existing
source (guid 100) that occupies no position of the list at all. -/
theorem C6_counterexample :
    mkStaleSorted.sorted = true ∧
    mkStaleSorted.topo_sort = (true, mkStaleSorted) ∧
    ((mkStaleSorted.op? 101).map OperatorObj.inputs) = some [1] ∧
    mkStaleSorted.tensorSource 1 = some 100 ∧
    (mkStaleSorted.ops.map (fun o => o.guid)) = [101] := by
  decide

/-- C6 (amended: the graph's `sorted` flag must be unset when `topo_sort` is
called — a stale flag short-circuits the sort, as the counterexample shows):
whenever `topo_sort` returns `true` on a graph with the flag unset, the flag
is set in the result and the resulting operator list is topologically
ordered — every input whose source operator exists has that source at an
earlier position. -/
theorem C6_topo_sort_spec (g : GraphObj) (hs : g.sorted = false) (g2 : GraphObj)
    (h : g.topo_sort = (true, g2)) :
    g2.sorted = true ∧ OrderedOps g2 g2.ops := by
  unfold GraphObj.topo_sort at h
  rw [hs] at h
  simp only [Bool.false_eq_true, if_false] at h
  rcases hl : topoLoop g g.ops.length [] with _ | l
  · rw [hl] at h
    have h2 : ((false, g) : Bool × GraphObj) = (true, g2) := h
    injection h2 with h3 h4
    cases h3
  · rw [hl] at h
    have h2 : ((true, { g with ops := l, sorted := true }) : Bool × GraphObj)
        = (true, g2) := h
    injection h2 with h3 h4
    rw [← h4]
    constructor
    · rfl
    · have hord : OrderedOps g l := by
        refine topoLoop_ordered g g.ops.length [] ?_ l hl
        intro i
        exact absurd i.isLt (by simp)
      exact hord

/-- Witness for C6_topo_sort_spec on the two-operator chain. -/
theorem C6_topo_sort_spec_witness :
    mkChain2.sorted = false ∧
    ((topoChainSorted.sorted = true ∧ OrderedOps topoChainSorted topoChainSorted.ops)) :=
  ⟨rfl, C6_topo_sort_spec mkChain2 rfl topoChainSorted (by decide)⟩

/-- Elements of a sorting pass come from the emitted list or the pending
list. -/
theorem topoPass_mem (g : GraphObj) :
    ∀ (pending acc : List OperatorObj), ∀ b ∈ topoPass g pending acc,
      b ∈ acc ∨ b ∈ pending := by
  intro pending
  induction pending with
  | nil =>
    intro acc b hb
    exact Or.inl hb
  | cons op rest ih =>
    intro acc b hb
    simp only [topoPass] at hb
    split at hb
    · rcases ih _ b hb with h1 | h1
      · rcases List.mem_append.mp h1 with h2 | h2
        · exact Or.inl h2
        · right
          rw [List.mem_singleton.mp h2]
          exact List.mem_cons_self _ _
      · exact Or.inr (List.mem_cons_of_mem _ h1)
    · rcases ih _ b hb with h1 | h1
      · exact Or.inl h1
      · exact Or.inr (List.mem_cons_of_mem _ h1)

/-- In a graph whose guids are unique, with two operators feeding each
other, a sorting pass can never emit either of them, and the emitted list
stays a duplicate-free subset of the operator list. -/
theorem topoPass_cycle_inv (g : GraphObj) (o1 o2 : OperatorObj)
    (hnd : (g.ops.map (fun o => o.guid)).Nodup)
    (h1 : o1 ∈ g.ops) (h2 : o2 ∈ g.ops)
    (t1 : Nat) (ht1 : t1 ∈ o1.inputs) (hs1 : g.tensorSource t1 = some o2.guid)
    (t2 : Nat) (ht2 : t2 ∈ o2.inputs) (hs2 : g.tensorSource t2 = some o1.guid) :
    ∀ (pending acc : List OperatorObj), pending ⊆ g.ops →
    ((∀ b ∈ acc, b ∈ g.ops) ∧ (acc.map (fun o => o.guid)).Nodup ∧
      o1.guid ∉ acc.map (fun o => o.guid) ∧ o2.guid ∉ acc.map (fun o => o.guid)) →
    ((∀ b ∈ topoPass g pending acc, b ∈ g.ops) ∧
      ((topoPass g pending acc).map (fun o => o.guid)).Nodup ∧
      o1.guid ∉ (topoPass g pending acc).map (fun o => o.guid) ∧
      o2.guid ∉ (topoPass g pending acc).map (fun o => o.guid)) := by
  intro pending
  induction pending with
  | nil => intro acc _ hinv; exact hinv
  | cons op rest ih =>
    intro acc hpend hinv
    obtain ⟨hsub, hand, hno1, hno2⟩ := hinv
    have hop : op ∈ g.ops := hpend (List.mem_cons_self _ _)
    have hrest : rest ⊆ g.ops := fun b hb => hpend (List.mem_cons_of_mem _ hb)
    simp only [topoPass]
    split
    · rename_i hcond
      obtain ⟨hnew, hready⟩ := (Bool.and_eq_true _ _).mp hcond
      have hfresh : op.guid ∉ acc.map (fun o => o.guid) := by
        intro hmem
        have hc : (acc.map (fun o => o.guid)).contains op.guid = true := by
          simpa using hmem
        rw [hc] at hnew
        simp at hnew
      have hne1 : op.guid ≠ o1.guid := by
        intro he
        have he2 : op = o1 := List.inj_on_of_nodup_map hnd hop h1 he
        have := topoPass_ready hready t1 (he2 ▸ ht1) o2.guid hs1
        exact hno2 this
      have hne2 : op.guid ≠ o2.guid := by
        intro he
        have he2 : op = o2 := List.inj_on_of_nodup_map hnd hop h2 he
        have := topoPass_ready hready t2 (he2 ▸ ht2) o1.guid hs2
        exact hno1 this
      refine ih _ hrest ⟨?_, ?_, ?_, ?_⟩
      · intro b hb
        rcases List.mem_append.mp hb with hb2 | hb2
        · exact hsub b hb2
        · rw [List.mem_singleton.mp hb2]; exact hop
      · rw [List.map_append]
        simp [List.nodup_append, hand, hfresh]
      · rw [List.map_append]
        simp only [List.mem_append]
        rintro (hm | hm)
        · exact hno1 hm
        · simp at hm
          exact hne1 hm.symm
      · rw [List.map_append]
        simp only [List.mem_append]
        rintro (hm | hm)
        · exact hno2 hm
        · simp at hm
          exact hne2 hm.symm
    · exact ih _ hrest ⟨hsub, hand, hno1, hno2⟩

/-- Under the cycle invariant the emitted list is strictly shorter than the
operator list. -/
theorem cycle_inv_length (g : GraphObj) (o1 : OperatorObj) (h1 : o1 ∈ g.ops)
    (acc : List OperatorObj)
    (hsub : ∀ b ∈ acc, b ∈ g.ops) (hand : (acc.map (fun o => o.guid)).Nodup)
    (hno1 : o1.guid ∉ acc.map (fun o => o.guid)) :
    acc.length < g.ops.length := by
  have hnd2 : (o1.guid :: acc.map (fun o => o.guid)).Nodup :=
    List.nodup_cons.mpr ⟨hno1, hand⟩
  have hsub2 : (o1.guid :: acc.map (fun o => o.guid)) ⊆
      g.ops.map (fun o => o.guid) := by
    intro x hx
    rcases List.mem_cons.mp hx with rfl | hx2
    · exact List.mem_map_of_mem _ h1
    · obtain ⟨c, hc, hcg⟩ := List.mem_map.mp hx2
      rw [← hcg]
      exact List.mem_map_of_mem _ (hsub c hc)
  have := (List.Nodup.subperm hnd2 hsub2).length_le
  simp at this
  omega

/-- With a two-operator cycle the fixpoint loop always fails. -/
theorem topoLoop_cycle (g : GraphObj) (o1 o2 : OperatorObj)
    (hnd : (g.ops.map (fun o => o.guid)).Nodup)
    (h1 : o1 ∈ g.ops) (h2 : o2 ∈ g.ops)
    (t1 : Nat) (ht1 : t1 ∈ o1.inputs) (hs1 : g.tensorSource t1 = some o2.guid)
    (t2 : Nat) (ht2 : t2 ∈ o2.inputs) (hs2 : g.tensorSource t2 = some o1.guid) :
    ∀ (fuel : Nat) (acc : List OperatorObj),
    ((∀ b ∈ acc, b ∈ g.ops) ∧ (acc.map (fun o => o.guid)).Nodup ∧
      o1.guid ∉ acc.map (fun o => o.guid) ∧ o2.guid ∉ acc.map (fun o => o.guid)) →
    topoLoop g fuel acc = none := by
  intro fuel
  induction fuel with
  | zero =>
    intro acc hinv
    obtain ⟨hsub, hand, hno1, hno2⟩ := hinv
    have hlen := cycle_inv_length g o1 h1 acc hsub hand hno1
    simp only [topoLoop]
    rw [if_neg (by omega)]
  | succ fuel ih =>
    intro acc hinv
    obtain ⟨hsub, hand, hno1, hno2⟩ := hinv
    have hlen := cycle_inv_length g o1 h1 acc hsub hand hno1
    simp only [topoLoop]
    rw [if_neg (by omega)]
    have hinv2 := topoPass_cycle_inv g o1 o2 hnd h1 h2 t1 ht1 hs1 t2 ht2 hs2
      g.ops acc (fun b hb => hb) ⟨hsub, hand, hno1, hno2⟩
    by_cases hlen2 : (topoPass g g.ops acc).length = acc.length
    · rw [if_pos hlen2]
    · rw [if_neg hlen2]
      exact ih _ hinv2

/-- C7: on a graph with the `sorted` flag unset, unique guids and two
operators whose outputs feed each other's inputs, `topo_sort` returns
`false` and returns the graph unchanged — the operator list is exactly as
before the call and the flag remains `false`. -/
theorem C7_topo_cycle (g : GraphObj) (hs : g.sorted = false)
    (hnd : (g.ops.map (fun o => o.guid)).Nodup)
    (o1 o2 : OperatorObj) (h1 : o1 ∈ g.ops) (h2 : o2 ∈ g.ops)
    (t1 : Nat) (ht1 : t1 ∈ o1.inputs) (hs1 : g.tensorSource t1 = some o2.guid)
    (t2 : Nat) (ht2 : t2 ∈ o2.inputs) (hs2 : g.tensorSource t2 = some o1.guid) :
    g.topo_sort = (false, g) := by
  have hl := topoLoop_cycle g o1 o2 hnd h1 h2 t1 ht1 hs1 t2 ht2 hs2
    g.ops.length []
    ⟨fun b hb => absurd hb (List.not_mem_nil b), List.nodup_nil,
      List.not_mem_nil _, List.not_mem_nil _⟩
  unfold GraphObj.topo_sort
  rw [hs]
  simp only [Bool.false_eq_true, if_false, hl]

/-- Witness for C7_topo_cycle on the spec §8.4 graph of two mutually
feeding operators. -/
theorem C7_topo_cycle_witness :
    (mkCycle.sorted = false ∧
      (mkCycle.ops.map (fun o => o.guid)).Nodup ∧
      mkCycle.tensorSource 1 = some 101 ∧ mkCycle.tensorSource 0 = some 100) ∧
    mkCycle.topo_sort = (false, mkCycle) :=
  ⟨⟨rfl, by decide, by decide, by decide⟩,
    C7_topo_cycle mkCycle rfl (by decide)
      { guid := 100, kind := OpKind.other 0, inputs := [1], outputs := [0],
        predecessors := [101], successors := [101] }
      { guid := 101, kind := OpKind.other 1, inputs := [0], outputs := [1],
        predecessors := [100], successors := [100] }
      (by decide) (by decide)
      1 (by decide) (by decide)
      0 (by decide) (by decide)⟩

/-- Mapping a pointwise-successful fallible function over a list succeeds
with the pointwise results. -/
theorem mapM_eq_some_of {f : Nat → Option Nat} {g : Nat → Nat} :
    ∀ (l : List Nat), (∀ j ∈ l, f j = some (g j)) → l.mapM f = some (l.map g) := by
  intro l
  induction l with
  | nil => intro _; rfl
  | cons x xs ih =>
    intro h
    rw [List.mapM_cons, h x (List.mem_cons_self _ _),
      ih (fun j hj => h j (List.mem_cons_of_mem _ hj))]
    rfl

/-- Mapping a fallible function fails as soon as one position fails. -/
theorem mapM_eq_none_of {f : Nat → Option Nat} :
    ∀ (l : List Nat) (j : Nat), j ∈ l → f j = none → l.mapM f = none := by
  intro l
  induction l with
  | nil => intro j hj; cases hj
  | cons x xs ih =>
    intro j hj hf
    rw [List.mapM_cons]
    rcases List.mem_cons.mp hj with rfl | hj2
    · rw [hf]; rfl
    · rcases hx : f x with _ | y
      · rfl
      · rw [ih j hj2 hf]
        rfl

/-- Position `j` of a map over `range m`. -/
theorem map_range_getD (g : Nat → Nat) (m j : Nat) (hj : j < m) :
    ((List.range m).map g).getD j 0 = g j := by
  rw [List.getD_eq_getElem _ _ (by simpa using hj)]
  rw [List.getElem_map]
  congr 1
  exact List.getElem_range _ _

/-- The source's index computation at result position `j` reads exactly the
`j`-th entry of the left-padded shape. -/
theorem padShape_getD (m : Nat) (A : List Nat) (hm : A.length ≤ m)
    (j : Nat) (hj : j < m) :
    (padShape m A).getD j 0 =
      if m - 1 - j < A.length then A.getD (A.length - 1 - (m - 1 - j)) 0
      else 1 := by
  unfold padShape
  by_cases h : j < m - A.length
  · rw [List.getD_append _ _ _ _ (by simp; omega)]
    rw [if_neg (by omega)]
    rw [List.getD_eq_getElem _ _ (by simp; omega)]
    simp
  · rw [List.getD_append_right _ _ _ _ (by simp; omega)]
    rw [if_pos (by omega)]
    simp only [List.length_replicate]
    congr 1
    omega

/-- Entries of a padded all-positive shape are positive. -/
theorem padShape_getD_pos (m : Nat) (A : List Nat) (hA : ∀ d ∈ A, 0 < d)
    (hm : A.length ≤ m) (j : Nat) (hj : j < m) :
    0 < (padShape m A).getD j 0 := by
  rw [padShape_getD m A hm j hj]
  split
  · rename_i h
    have hidx : A.length - 1 - (m - 1 - j) < A.length := by omega
    rw [List.getD_eq_getElem _ _ hidx]
    exact hA _ (List.getElem_mem _)
  · omega

/-- The per-position broadcast of the source equals the padded-entry
resolution. -/
theorem bcastDim_eq_padded (A B : List Nat) (j : Nat)
    (hj : j < max A.length B.length) :
    bcastDim A B j =
      bcastD ((padShape (max A.length B.length) A).getD j 0)
             ((padShape (max A.length B.length) B).getD j 0) := by
  rw [padShape_getD (max A.length B.length) A (le_max_left _ _) j hj,
    padShape_getD (max A.length B.length) B (le_max_right _ _) j hj]
  rfl

/-- On positive dimension pairs the source's resolution is the maximum when
the pair is compatible, and the fatal assertion otherwise. -/
theorem bcastD_pos_eq (dA dB : Nat) (hA : 0 < dA) (hB : 0 < dB) :
    bcastD dA dB =
      if dA = dB ∨ dA = 1 ∨ dB = 1 then some (max dA dB) else none := by
  unfold bcastD
  by_cases h1 : dA = dB
  · rw [if_pos h1, if_pos (Or.inl h1), h1, Nat.max_self]
  · by_cases h2 : dA = 1
    · rw [if_neg h1, if_pos h2, if_pos (Or.inr (Or.inl h2))]
      congr 1
      omega
    · by_cases h3 : dB = 1
      · rw [if_neg h1, if_neg h2, if_pos h3, if_pos (Or.inr (Or.inr h3))]
        congr 1
        omega
      · rw [if_neg h1, if_neg h2, if_neg h3, if_neg (by tauto)]

/-- C9 counterexample: the claim says the result dimension is the maximum
of the two, but on the shapes `[1]` and `[0]` (one dimension is 1, so no
assertion fires) the code returns the other dimension `0`, not the maximum
`1`. -/
theorem C9_counterexample :
    infer_broadcast [1] [0] = some [0] ∧ max 1 0 = 1 ∧ (0 : Nat) ≠ 1 := by
  decide

/-- C9 (amended: for shapes whose dimensions are all positive — with a 0
dimension the code follows the one-is-1 rule and returns the other
dimension, which is not the maximum): `infer_broadcast` pads the shorter
shape on the left with 1s; when at every position the padded dimensions are
equal or one is 1, the result holds the maximum at every position, and
otherwise the fatal assertion fires; consequently MatMul shape inference on
`[4,1,M,K]` and `[1,7,K,N]` with both transposition flags false yields
`[4,7,M,N]`. -/
theorem C9_broadcast_spec (A B : List Nat)
    (hA : ∀ d ∈ A, 0 < d) (hB : ∀ d ∈ B, 0 < d) :
    ((∀ j, j < max A.length B.length →
        ((padShape (max A.length B.length) A).getD j 0 =
           (padShape (max A.length B.length) B).getD j 0 ∨
         (padShape (max A.length B.length) A).getD j 0 = 1 ∨
         (padShape (max A.length B.length) B).getD j 0 = 1)) →
      ∃ C, infer_broadcast A B = some C ∧ C.length = max A.length B.length ∧
        ∀ j, j < max A.length B.length →
          C.getD j 0 = max ((padShape (max A.length B.length) A).getD j 0)
            ((padShape (max A.length B.length) B).getD j 0)) ∧
    ((∃ j, j < max A.length B.length ∧
        ¬((padShape (max A.length B.length) A).getD j 0 =
            (padShape (max A.length B.length) B).getD j 0 ∨
          (padShape (max A.length B.length) A).getD j 0 = 1 ∨
          (padShape (max A.length B.length) B).getD j 0 = 1)) →
      infer_broadcast A B = none) ∧
    (∀ M K N : Nat, matmulInferShape false false [4, 1, M, K] [1, 7, K, N] =
      some [4, 7, M, N]) := by
  have hpoint : ∀ j, j < max A.length B.length →
      bcastDim A B j =
        if (padShape (max A.length B.length) A).getD j 0 =
             (padShape (max A.length B.length) B).getD j 0 ∨
           (padShape (max A.length B.length) A).getD j 0 = 1 ∨
           (padShape (max A.length B.length) B).getD j 0 = 1
        then some (max ((padShape (max A.length B.length) A).getD j 0)
          ((padShape (max A.length B.length) B).getD j 0))
        else none := by
    intro j hj
    rw [bcastDim_eq_padded A B j hj]
    exact bcastD_pos_eq _ _
      (padShape_getD_pos _ A hA (le_max_left _ _) j hj)
      (padShape_getD_pos _ B hB (le_max_right _ _) j hj)
  refine ⟨?_, ?_, ?_⟩
  · intro hc
    refine ⟨(List.range (max A.length B.length)).map
        (fun j => max ((padShape (max A.length B.length) A).getD j 0)
          ((padShape (max A.length B.length) B).getD j 0)), ?_, by simp, ?_⟩
    · unfold infer_broadcast
      apply mapM_eq_some_of
      intro j hj
      rw [List.mem_range] at hj
      rw [hpoint j hj, if_pos (hc j hj)]
    · intro j hj
      exact map_range_getD _ _ j hj
  · rintro ⟨j, hj, hnc⟩
    unfold infer_broadcast
    apply mapM_eq_none_of _ j (List.mem_range.mpr hj)
    rw [hpoint j hj, if_neg hnc]
  · intro M K N
    have hb : infer_broadcast [4, 1] [1, 7] = some [4, 7] := by decide
    simp [matmulInferShape, hb, List.getD]

/-- Witness for C9_broadcast_spec at the positive shapes `[2, 3]` and
`[3]`. -/
theorem C9_broadcast_spec_witness :
    (∀ d ∈ [2, 3], 0 < d) ∧ (∀ d ∈ [3], 0 < d) ∧
    (((∀ j, j < max ([2, 3] : List Nat).length ([3] : List Nat).length →
        ((padShape (max ([2, 3] : List Nat).length ([3] : List Nat).length) [2, 3]).getD j 0 =
           (padShape (max ([2, 3] : List Nat).length ([3] : List Nat).length) [3]).getD j 0 ∨
         (padShape (max ([2, 3] : List Nat).length ([3] : List Nat).length) [2, 3]).getD j 0 = 1 ∨
         (padShape (max ([2, 3] : List Nat).length ([3] : List Nat).length) [3]).getD j 0 = 1)) →
      ∃ C, infer_broadcast [2, 3] [3] = some C ∧
        C.length = max ([2, 3] : List Nat).length ([3] : List Nat).length ∧
        ∀ j, j < max ([2, 3] : List Nat).length ([3] : List Nat).length →
          C.getD j 0 =
            max ((padShape (max ([2, 3] : List Nat).length ([3] : List Nat).length) [2, 3]).getD j 0)
              ((padShape (max ([2, 3] : List Nat).length ([3] : List Nat).length) [3]).getD j 0)) ∧
    ((∃ j, j < max ([2, 3] : List Nat).length ([3] : List Nat).length ∧
        ¬((padShape (max ([2, 3] : List Nat).length ([3] : List Nat).length) [2, 3]).getD j 0 =
            (padShape (max ([2, 3] : List Nat).length ([3] : List Nat).length) [3]).getD j 0 ∨
          (padShape (max ([2, 3] : List Nat).length ([3] : List Nat).length) [2, 3]).getD j 0 = 1 ∨
          (padShape (max ([2, 3] : List Nat).length ([3] : List Nat).length) [3]).getD j 0 = 1)) →
      infer_broadcast [2, 3] [3] = none) ∧
    (∀ M K N : Nat, matmulInferShape false false [4, 1, M, K] [1, 7, K, N] =
      some [4, 7, M, N])) :=
  ⟨by decide, by decide, C9_broadcast_spec [2, 3] [3] (by decide) (by decide)⟩

/-- Writing back the value just read leaves the list unchanged. -/
theorem set_getD_self : ∀ (l : List Nat) (i : Nat), i < l.length →
    l.set i (l.getD i 0) = l := by
  intro l
  induction l with
  | nil => intro i h; simp at h
  | cons x xs ih =>
    intro i h
    cases i with
    | zero => simp
    | succ n =>
      simp only [List.set_cons_succ, List.getD_cons_succ]
      rw [ih n (by simpa using h)]

/-- Reading the position just written returns the written value. -/
theorem getD_set_self (l : List Nat) (i v : Nat) (h : i < l.length) :
    (l.set i v).getD i 0 = v := by
  rw [List.getD_eq_getElem _ _ (by simpa using h)]
  simp

/-- The accumulation loop of `ConcatObj::inferShape` collapses to a single
write of the dimension total. -/
theorem concat_foldl_set (a : Nat) :
    ∀ (rest : List (List Nat)) (dims : List Nat), a < dims.length →
    rest.foldl (fun dims s => dims.set a (dims.getD a 0 + s.getD a 0)) dims =
      dims.set a (dims.getD a 0 + (rest.map (fun s => s.getD a 0)).sum) := by
  intro rest
  induction rest with
  | nil =>
    intro dims ha
    simp only [List.foldl_nil, List.map_nil, List.sum_nil, Nat.add_zero]
    exact (set_getD_self dims a ha).symm
  | cons s rest2 ih =>
    intro dims ha
    simp only [List.foldl_cons, List.map_cons, List.sum_cons]
    rw [ih _ (by simpa using ha)]
    rw [getD_set_self _ _ _ ha, List.set_set, Nat.add_assoc]

/-- C10: a Concat over inputs of rank `r` with an axis `d` in `[-r, r-1]`
stores axis `d` when `d ≥ 0` and `r + d` when `d < 0` (an axis outside the
range, or a rank below 1, fails the constructor assertion), and
`inferShape` returns exactly one shape: the first input's shape with the
stored-axis entry replaced by the sum of that entry over all inputs. -/
theorem C10_concat_spec (r : Nat) (hr : 1 ≤ r) (d : Int)
    (hd1 : -(r : Int) ≤ d) (hd2 : d ≤ (r : Int) - 1)
    (s0 : List Nat) (rest : List (List Nat)) (h0 : s0.length = r) :
    ∃ a, get_real_axis d r = some a ∧
      ((a : Int) = if 0 ≤ d then d else (r : Int) + d) ∧ a < r ∧
      concatInferShape a (s0 :: rest) =
        some [s0.set a (((s0 :: rest).map (fun s => s.getD a 0)).sum)] ∧
      (∀ (d2 : Int) (r2 : Nat), (r2 < 1 ∨ d2 < -(r2 : Int) ∨ (r2 : Int) - 1 < d2) →
        get_real_axis d2 r2 = none) := by
  have ha : (if d < 0 then ((r : Int) + d).toNat else d.toNat) < r := by
    by_cases hd : d < 0
    · rw [if_pos hd]; omega
    · rw [if_neg hd]; omega
  refine ⟨if d < 0 then ((r : Int) + d).toNat else d.toNat, ?_, ?_, ha, ?_, ?_⟩
  · unfold get_real_axis
    rw [if_pos ⟨hr, hd1, hd2⟩]
  · by_cases hd : d < 0
    · rw [if_pos hd, if_neg (by omega)]
      omega
    · rw [if_neg hd, if_pos (by omega)]
      omega
  · simp only [concatInferShape]
    rw [concat_foldl_set _ rest s0 (by omega)]
    rw [List.map_cons, List.sum_cons]
  · intro d2 r2 h
    unfold get_real_axis
    rw [if_neg (by omega)]

/-- Witness for C10_concat_spec: concatenating `[2,3]` and `[2,5]` along
axis `-1` of rank 2 stores axis 1 and infers the shape `[2,8]`. -/
theorem C10_concat_spec_witness :
    ((1 : Nat) ≤ 2 ∧ -((2 : Nat) : Int) ≤ -1 ∧ (-1 : Int) ≤ ((2 : Nat) : Int) - 1 ∧
      ([2, 3] : List Nat).length = 2) ∧
    ∃ a, get_real_axis (-1) 2 = some a ∧
      ((a : Int) = if 0 ≤ (-1 : Int) then -1 else ((2 : Nat) : Int) + -1) ∧ a < 2 ∧
      concatInferShape a [[2, 3], [2, 5]] =
        some [([2, 3] : List Nat).set a
          ((([[2, 3], [2, 5]] : List (List Nat)).map (fun s => s.getD a 0)).sum)] ∧
      (∀ (d2 : Int) (r2 : Nat), (r2 < 1 ∨ d2 < -(r2 : Int) ∨ (r2 : Int) - 1 < d2) →
        get_real_axis d2 r2 = none) :=
  ⟨⟨by decide, by decide, by decide, by decide⟩,
    C10_concat_spec 2 (by decide) (-1) (by decide) (by decide) [2, 3] [[2, 5]] rfl⟩

end TinyInfini
